import Mathlib

/-!
Verification development for the PSP-DRP plugin (qberty1337/PSP-DRP).

Shallow embedding, in Lean, of the parts of the C source that the checked
claims are about:

* the chunked-transfer senders
  (`network_send_icon` in `net/src/network.c`,
   `usb_send_stats_upload` and `usb_send_icon` in `usb/src/usb_protocol.c`),
* the polling receivers (`network_poll_message`, `usb_poll_message`) and the
  streamed stats reassembly (`usb_poll_stats_response`),
* the discovery handler (`network_handle_discovery`),
* the WiFi association wait (`wait_for_connection`),
* one tick of the net plugin worker loop (`plugin_thread` in `net/src/main.c`),
* the USB descriptor tables (`usb/src/usb_driver.c`).

Machine integers are modelled as `Nat` with explicit `% 2^w` where the C code
truncates (casts to `uint16_t`, `uint32_t` arithmetic); buffers are `List Nat`
(one `Nat` per byte).  Monotonic clock values are `Nat` microseconds, so the
C `uint64` subtraction `now - earlier` is Lean's truncated `Nat` subtraction,
which agrees with the C value whenever `earlier ≤ now` (the clock is monotone).
-/

namespace PspDrp

/-! ### Generic chunk splitting

Both transports split a payload into chunks of a fixed maximal size.
`chunkSplit cs k rest` is the data-level content of a `for`-style loop that
runs exactly `k` iterations, each taking the next at-most-`cs` bytes;
`chunkWhileInduction` drives proofs about the `while (offset < len)`-style
loops that run until the payload is exhausted. -/

def chunkSplit (cs : Nat) : Nat → List Nat → List (List Nat)
  | 0, _ => []
  | k + 1, rest => rest.take cs :: chunkSplit cs k (rest.drop cs)

theorem chunkSplit_length (cs k : Nat) (rest : List Nat) :
    (chunkSplit cs k rest).length = k := by
  induction k generalizing rest with
  | zero => rfl
  | succ k ih => simp [chunkSplit, ih]

theorem chunkSplit_flatten (cs : Nat) :
    ∀ (k : Nat) (rest : List Nat), rest.length ≤ k * cs →
      (chunkSplit cs k rest).flatten = rest := by
  intro k
  induction k with
  | zero =>
    intro rest h
    have : rest = [] := List.eq_nil_of_length_eq_zero (by omega)
    simp [this, chunkSplit]
  | succ k ih =>
    intro rest h
    have hk : (k + 1) * cs = k * cs + cs := by ring
    have h' : (rest.drop cs).length ≤ k * cs := by
      simp only [List.length_drop]; omega
    simp [chunkSplit, ih _ h', List.take_append_drop]

theorem chunkSplit_map_length (cs : Nat) :
    ∀ (k : Nat) (rest : List Nat),
      rest.length ≤ (k + 1) * cs → k * cs < rest.length →
      (chunkSplit cs (k + 1) rest).map List.length
        = List.replicate k cs ++ [rest.length - k * cs] := by
  intro k
  induction k with
  | zero =>
    intro rest hle hlt
    have : min cs rest.length = rest.length := by omega
    simp [chunkSplit, List.length_take, this]
  | succ k ih =>
    intro rest hle hlt
    have h1 : (k + 1) * cs = k * cs + cs := by ring
    have h2 : (k + 1 + 1) * cs = k * cs + cs + cs := by ring
    have hcsle : cs ≤ rest.length := by omega
    have hdle : (rest.drop cs).length ≤ (k + 1) * cs := by
      simp only [List.length_drop]; omega
    have hdlt : k * cs < (rest.drop cs).length := by
      simp only [List.length_drop]; omega
    have hih := ih (rest.drop cs) hdle hdlt
    show (rest.take cs :: chunkSplit cs (k + 1) (rest.drop cs)).map List.length = _
    rw [List.map_cons, hih]
    simp only [List.length_take, List.length_drop, List.replicate_succ,
      List.cons_append]
    have hsub : rest.length - cs - k * cs = rest.length - (k + 1) * cs := by omega
    rw [hsub]
    congr 1
    omega

/-- Ceiling-division facts used by every chunking theorem:
with `k := (n + cs - 1) / cs` chunks, `n ≤ k * cs` and `(k - 1) * cs < n`. -/
theorem ceil_chunks_spec (cs n : Nat) (hcs : 0 < cs) (hn : 0 < n) :
    n ≤ ((n + cs - 1) / cs) * cs ∧ (((n + cs - 1) / cs) - 1) * cs < n
      ∧ (n + cs - 1) / cs = (n - 1) / cs + 1 := by
  have hrw : n + cs - 1 = (n - 1) + cs := by omega
  have hdiv : (n + cs - 1) / cs = (n - 1) / cs + 1 := by
    rw [hrw, Nat.add_div_right _ hcs]
  have hmod := Nat.div_add_mod (n - 1) cs
  have hlt : (n - 1) % cs < cs := Nat.mod_lt _ hcs
  have hle : (n - 1) / cs * cs ≤ n - 1 := Nat.div_mul_le_self _ _
  refine ⟨?_, ?_, hdiv⟩
  · rw [hdiv]
    have : ((n - 1) / cs + 1) * cs = cs * ((n - 1) / cs) + cs := by ring
    omega
  · rw [hdiv]
    simpa using Nat.lt_of_le_of_lt hle (by omega)

/-- Induction principle matching the shape of the C `while (offset < len)`
chunk loops: either the unsent suffix is empty, or one chunk of at most `cs`
bytes is consumed. -/
theorem chunkWhileInduction (cs : Nat) (hcs : 0 < cs) {motive : List Nat → Prop}
    (nil : motive [])
    (cons : ∀ b bs, motive ((b :: bs).drop cs) → motive (b :: bs)) :
    ∀ rest, motive rest := fun rest =>
  match rest with
  | [] => nil
  | b :: bs => cons b bs (chunkWhileInduction cs hcs nil cons ((b :: bs).drop cs))
termination_by rest => rest.length
decreasing_by simp [List.length_drop]; omega

/-! ### `network_send_icon` (net/src/network.c, lines 616-668)

`ICON_CHUNK_SIZE` is 1024 (discord_rpc.h).  The C function computes
`total_chunks = (icon_size + ICON_CHUNK_SIZE - 1) / ICON_CHUNK_SIZE` in
`uint32_t` arithmetic and stores it in a `uint16_t`, then runs a `for` loop
over exactly `total_chunks` iterations; each iteration sends a chunk packet
whose `data_length = min(ICON_CHUNK_SIZE, icon_size - offset)`, and finally
one `IconEndPacket` with `total_size = icon_size` and a CRC32. -/

def ICON_CHUNK_SIZE : Nat := 1024

structure IconChunkPacket where
  game_id : String
  chunk_index : Nat
  total_chunks : Nat
  data_length : Nat
  data : List Nat
  deriving Repr, DecidableEq

structure IconEndPacket where
  game_id : String
  total_size : Nat
  crc32 : Nat
  deriving Repr, DecidableEq

/-- `crc32_calc` (network.c lines 94-112): standard bitwise CRC-32 with
polynomial 0xEDB88320, all arithmetic on 32-bit words. -/
def crc32_round (crc : Nat) : Nat :=
  if crc % 2 = 1 then (crc / 2) ^^^ 0xEDB88320 else crc / 2

def crc32_byte (crc b : Nat) : Nat :=
  Nat.iterate crc32_round 8 ((crc ^^^ b) % 2 ^ 32)

def crc32_calc (data : List Nat) : Nat :=
  (data.foldl crc32_byte 0xFFFFFFFF) ^^^ 0xFFFFFFFF

/-- The chunk `for`-loop of `network_send_icon`: `k` is the remaining
iteration count (`total_chunks - chunk_index`), `rest` the unsent suffix of
the icon buffer (`icon_data + offset`). -/
def network_icon_loop (gid : String) (tc : Nat) :
    Nat → Nat → List Nat → List IconChunkPacket
  | _, 0, _ => []
  | idx, k + 1, rest =>
      { game_id := gid
        chunk_index := idx % 2 ^ 16
        total_chunks := tc
        data_length := min ICON_CHUNK_SIZE rest.length
        data := rest.take ICON_CHUNK_SIZE } ::
      network_icon_loop gid tc (idx + 1) k (rest.drop ICON_CHUNK_SIZE)

/-- `network_send_icon`: `none` models the `-1` rejection of a null/empty
icon; otherwise the emitted chunk packets followed by the terminal
`IconEndPacket`.  `total_chunks` is truncated to 16 bits exactly as the C
assignment to a `uint16_t` does. -/
def network_send_icon (gid : String) (data : List Nat) :
    Option (List IconChunkPacket × IconEndPacket) :=
  if data.length = 0 then none
  else
    some (network_icon_loop gid
        (((data.length + ICON_CHUNK_SIZE - 1) % 2 ^ 32 / ICON_CHUNK_SIZE) % 2 ^ 16)
        0
        (((data.length + ICON_CHUNK_SIZE - 1) % 2 ^ 32 / ICON_CHUNK_SIZE) % 2 ^ 16)
        data,
      { game_id := gid
        total_size := data.length % 2 ^ 32
        crc32 := crc32_calc data })

theorem network_icon_loop_data (gid : String) (tc : Nat) :
    ∀ (k idx : Nat) (rest : List Nat),
      (network_icon_loop gid tc idx k rest).map IconChunkPacket.data
        = chunkSplit ICON_CHUNK_SIZE k rest := by
  intro k
  induction k with
  | zero => intro idx rest; rfl
  | succ k ih => intro idx rest; simp [network_icon_loop, chunkSplit, ih]

theorem network_icon_loop_data_length (gid : String) (tc : Nat) :
    ∀ (k idx : Nat) (rest : List Nat),
      (network_icon_loop gid tc idx k rest).map IconChunkPacket.data_length
        = (chunkSplit ICON_CHUNK_SIZE k rest).map List.length := by
  intro k
  induction k with
  | zero => intro idx rest; rfl
  | succ k ih =>
    intro idx rest
    simp [network_icon_loop, chunkSplit, ih, List.length_take]

theorem network_icon_loop_length (gid : String) (tc : Nat) :
    ∀ (k idx : Nat) (rest : List Nat),
      (network_icon_loop gid tc idx k rest).length = k := by
  intro k
  induction k with
  | zero => intro idx rest; rfl
  | succ k ih => intro idx rest; simp [network_icon_loop, ih]

/-! ### `usb_send_stats_upload` (usb/src/usb_protocol.c, lines 279-328)

`USB_STATS_CHUNK_SIZE` is 480 (usb_protocol.h).  The C function computes
`total_chunks = (json_len + USB_STATS_CHUNK_SIZE - 1) / USB_STATS_CHUNK_SIZE`
in `size_t` (32-bit) arithmetic, rejects `total_chunks > 65535` with `-3`,
then runs `while (offset < json_len)`, each iteration emitting a packet with
`chunk_index`/`total_chunks` truncated to `uint16_t`.  `usb_driver_send` is
modelled as succeeding (its failure path aborts the loop with the error code
and is orthogonal to the chunk arithmetic the claims are about); a NULL
`json_data` pointer is subsumed by the `json_len == 0` case. -/

def USB_STATS_CHUNK_SIZE : Nat := 480

structure UsbStatsUploadPacket where
  last_updated : Nat
  chunk_index : Nat
  total_chunks : Nat
  data_length : Nat
  data : List Nat
  deriving Repr, DecidableEq

/-- The `while (offset < json_len)` loop of `usb_send_stats_upload`;
`rest` is the unsent suffix `json_data + offset`. -/
def usb_stats_upload_loop (lu tc idx : Nat) (rest : List Nat) :
    List UsbStatsUploadPacket :=
  match rest with
  | [] => []
  | b :: bs =>
      { last_updated := lu
        chunk_index := idx % 2 ^ 16
        total_chunks := tc % 2 ^ 16
        data_length := min USB_STATS_CHUNK_SIZE (b :: bs).length
        data := (b :: bs).take USB_STATS_CHUNK_SIZE } ::
      usb_stats_upload_loop lu tc (idx + 1) ((b :: bs).drop USB_STATS_CHUNK_SIZE)
termination_by rest.length
decreasing_by simp [List.length_drop, USB_STATS_CHUNK_SIZE]; omega

def usb_send_stats_upload (connected : Bool) (json_data : List Nat) (lu : Nat) :
    Except Int (List UsbStatsUploadPacket) :=
  if !connected then .error (-1)
  else if json_data.length = 0 then .error (-2)
  else if (json_data.length + USB_STATS_CHUNK_SIZE - 1) % 2 ^ 32
      / USB_STATS_CHUNK_SIZE > 65535 then .error (-3)
  else .ok (usb_stats_upload_loop lu
      ((json_data.length + USB_STATS_CHUNK_SIZE - 1) % 2 ^ 32
        / USB_STATS_CHUNK_SIZE) 0 json_data)

theorem usb_stats_upload_loop_spec (lu tc : Nat) :
    ∀ (n : Nat) (rest : List Nat), rest.length = n → ∀ idx : Nat,
      (usb_stats_upload_loop lu tc idx rest).map UsbStatsUploadPacket.data
          = chunkSplit USB_STATS_CHUNK_SIZE
              ((rest.length + USB_STATS_CHUNK_SIZE - 1) / USB_STATS_CHUNK_SIZE)
              rest
        ∧ (usb_stats_upload_loop lu tc idx rest).map
              UsbStatsUploadPacket.data_length
          = (chunkSplit USB_STATS_CHUNK_SIZE
              ((rest.length + USB_STATS_CHUNK_SIZE - 1) / USB_STATS_CHUNK_SIZE)
              rest).map List.length
        ∧ (usb_stats_upload_loop lu tc idx rest).length
          = (rest.length + USB_STATS_CHUNK_SIZE - 1) / USB_STATS_CHUNK_SIZE
        ∧ ∀ p ∈ usb_stats_upload_loop lu tc idx rest,
            p.total_chunks = tc % 2 ^ 16 := by
  intro n
  induction n using Nat.strong_induction_on with
  | _ n ih =>
    rintro rest rfl idx
    cases rest with
    | nil =>
      refine ⟨?_, ?_, ?_, ?_⟩ <;>
        simp [usb_stats_upload_loop, USB_STATS_CHUNK_SIZE, chunkSplit]
    | cons b bs =>
      have hlt : ((b :: bs).drop USB_STATS_CHUNK_SIZE).length < (b :: bs).length := by
        simp only [List.length_drop, List.length_cons, USB_STATS_CHUNK_SIZE]
        omega
      have hih := ih _ hlt ((b :: bs).drop USB_STATS_CHUNK_SIZE) rfl (idx + 1)
      have hceil : ((b :: bs).length + USB_STATS_CHUNK_SIZE - 1)
            / USB_STATS_CHUNK_SIZE
          = (((b :: bs).drop USB_STATS_CHUNK_SIZE).length
              + USB_STATS_CHUNK_SIZE - 1) / USB_STATS_CHUNK_SIZE + 1 := by
        simp only [List.length_cons, List.length_drop, USB_STATS_CHUNK_SIZE]
        omega
      rw [usb_stats_upload_loop, hceil, chunkSplit]
      refine ⟨?_, ?_, ?_, ?_⟩
      · simp only [List.map_cons, hih.1]
      · simp only [List.map_cons, hih.2.1, List.length_take]
      · simp only [List.length_cons, hih.2.2.1]
      · intro p hp
        rcases List.mem_cons.mp hp with h | h
        · rw [h]
        · exact hih.2.2.2 p h

/-- C1.  The claim as frozen quantifies over *every* non-empty payload; on the
code it only holds while the chunk count fits the 16-bit `total_chunks`
field (see `C1_icon_counterexample`), so it is proved here for every payload
with `ceil(n / chunk_size) ≤ 65535`: `network_send_icon` emits exactly
`ceil(n/1024)` chunks whose data lengths are 1024 for all but the last and
`n - (k-1)·1024` for the last, whose concatenation is the original buffer,
followed by an `IconEndPacket` with `total_size = n`; `usb_send_stats_upload`
declares `total_chunks = ceil(json_len/480)` on every chunk and its chunks
reassemble to the payload. -/
theorem C1_chunked_sender (gid : String) (idata jdata : List Nat) (lu : Nat)
    (hi0 : 0 < idata.length)
    (hik : (idata.length + ICON_CHUNK_SIZE - 1) / ICON_CHUNK_SIZE ≤ 65535)
    (hj0 : 0 < jdata.length)
    (hjk : (jdata.length + USB_STATS_CHUNK_SIZE - 1) / USB_STATS_CHUNK_SIZE
            ≤ 65535) :
    (∃ chunks endPkt,
      network_send_icon gid idata = some (chunks, endPkt)
      ∧ chunks.length = (idata.length + ICON_CHUNK_SIZE - 1) / ICON_CHUNK_SIZE
      ∧ chunks.map IconChunkPacket.data_length
          = List.replicate
              ((idata.length + ICON_CHUNK_SIZE - 1) / ICON_CHUNK_SIZE - 1)
              ICON_CHUNK_SIZE
            ++ [idata.length
                  - ((idata.length + ICON_CHUNK_SIZE - 1) / ICON_CHUNK_SIZE - 1)
                      * ICON_CHUNK_SIZE]
      ∧ (chunks.map IconChunkPacket.data).flatten = idata
      ∧ endPkt.total_size = idata.length)
    ∧ ∃ pkts,
      usb_send_stats_upload true jdata lu = .ok pkts
      ∧ pkts.length
          = (jdata.length + USB_STATS_CHUNK_SIZE - 1) / USB_STATS_CHUNK_SIZE
      ∧ (∀ p ∈ pkts, p.total_chunks
          = (jdata.length + USB_STATS_CHUNK_SIZE - 1) / USB_STATS_CHUNK_SIZE)
      ∧ (pkts.map UsbStatsUploadPacket.data).flatten = jdata := by
  obtain ⟨hile, hilt, hidiv⟩ :=
    ceil_chunks_spec ICON_CHUNK_SIZE idata.length (by norm_num [ICON_CHUNK_SIZE]) hi0
  obtain ⟨hjle, hjlt, hjdiv⟩ :=
    ceil_chunks_spec USB_STATS_CHUNK_SIZE jdata.length
      (by norm_num [USB_STATS_CHUNK_SIZE]) hj0
  constructor
  · -- network_send_icon
    have hkmul : (idata.length + ICON_CHUNK_SIZE - 1) / ICON_CHUNK_SIZE
          * ICON_CHUNK_SIZE ≤ 65535 * ICON_CHUNK_SIZE :=
      Nat.mul_le_mul_right _ hik
    have hn32 : idata.length + ICON_CHUNK_SIZE - 1 < 2 ^ 32 := by
      simp only [ICON_CHUNK_SIZE] at *
      omega
    have htc : ((idata.length + ICON_CHUNK_SIZE - 1) % 2 ^ 32 / ICON_CHUNK_SIZE)
          % 2 ^ 16 = (idata.length + ICON_CHUNK_SIZE - 1) / ICON_CHUNK_SIZE := by
      rw [Nat.mod_eq_of_lt hn32]
      exact Nat.mod_eq_of_lt (by omega)
    refine ⟨network_icon_loop gid
        ((idata.length + ICON_CHUNK_SIZE - 1) / ICON_CHUNK_SIZE) 0
        ((idata.length + ICON_CHUNK_SIZE - 1) / ICON_CHUNK_SIZE) idata,
      ⟨gid, idata.length % 2 ^ 32, crc32_calc idata⟩, ?_, ?_, ?_, ?_, ?_⟩
    · simp only [network_send_icon, htc]
      rw [if_neg (by omega)]
    · exact network_icon_loop_length _ _ _ _ _
    · rw [network_icon_loop_data_length]
      obtain ⟨m, hm⟩ : ∃ m,
          (idata.length + ICON_CHUNK_SIZE - 1) / ICON_CHUNK_SIZE = m + 1 :=
        ⟨_, hidiv⟩
      rw [hm]
      simp only [Nat.add_sub_cancel]
      exact chunkSplit_map_length ICON_CHUNK_SIZE m idata
        (by rw [← hm]; exact hile) (by rw [hm] at hilt; simpa using hilt)
    · rw [network_icon_loop_data]
      exact chunkSplit_flatten _ _ _ hile
    · exact Nat.mod_eq_of_lt (by simp only [ICON_CHUNK_SIZE] at *; omega)
  · -- usb_send_stats_upload
    have hkmul : (jdata.length + USB_STATS_CHUNK_SIZE - 1) / USB_STATS_CHUNK_SIZE
          * USB_STATS_CHUNK_SIZE ≤ 65535 * USB_STATS_CHUNK_SIZE :=
      Nat.mul_le_mul_right _ hjk
    have hn32 : jdata.length + USB_STATS_CHUNK_SIZE - 1 < 2 ^ 32 := by
      simp only [USB_STATS_CHUNK_SIZE] at *
      omega
    have hspec := usb_stats_upload_loop_spec lu
      ((jdata.length + USB_STATS_CHUNK_SIZE - 1) / USB_STATS_CHUNK_SIZE)
      jdata.length jdata rfl 0
    refine ⟨usb_stats_upload_loop lu
        ((jdata.length + USB_STATS_CHUNK_SIZE - 1) / USB_STATS_CHUNK_SIZE) 0
        jdata, ?_, ?_, ?_, ?_⟩
    · simp only [usb_send_stats_upload, Bool.not_true, Bool.false_eq_true,
        if_false, Nat.mod_eq_of_lt hn32]
      rw [if_neg (by omega), if_neg (by omega)]
    · exact hspec.2.2.1
    · intro p hp
      rw [hspec.2.2.2 p hp]
      exact Nat.mod_eq_of_lt (by omega)
    · rw [hspec.1]
      exact chunkSplit_flatten _ _ _ hjle

/-- C1 counterexample: for a 2^26-byte icon the `uint16_t` cast of
`total_chunks` in `network_send_icon` wraps to 0, so the sender emits 0
chunks although `ceil(2^26 / 1024) = 65536` — the claim's "for every
non-empty payload" fails beyond 65535 chunks. -/
theorem C1_icon_counterexample :
    (network_send_icon "ULUS10000" (List.replicate 67108864 0)).map
        (fun r => r.1.length) = some 0
    ∧ (67108864 + ICON_CHUNK_SIZE - 1) / ICON_CHUNK_SIZE = 65536
    ∧ (0 : Nat) ≠ 65536 := by
  refine ⟨?_, by norm_num [ICON_CHUNK_SIZE], by norm_num⟩
  have h : network_send_icon "ULUS10000" (List.replicate 67108864 0)
      = some (network_icon_loop "ULUS10000" 0 0 0 (List.replicate 67108864 0),
          { game_id := "ULUS10000"
            total_size := 67108864 % 2 ^ 32
            crc32 := crc32_calc (List.replicate 67108864 0) }) := by
    simp only [network_send_icon, List.length_replicate]
    norm_num [ICON_CHUNK_SIZE]
  rw [h, Option.map_some']
  rw [show network_icon_loop "ULUS10000" 0 0 0 (List.replicate 67108864 0)
        = [] from rfl]
  rfl

/-- Witness for `C1_chunked_sender` at a 2500-byte icon (the spec scenario:
3 chunks of 1024, 1024, 452 and a terminal record with total_size 2500) and
a 961-byte stats payload. -/
theorem C1_chunked_sender_witness :
    0 < (List.replicate 2500 (0 : Nat)).length
    ∧ ((∃ chunks endPkt,
        network_send_icon "ULUS10041" (List.replicate 2500 (0 : Nat))
          = some (chunks, endPkt)
        ∧ chunks.length
            = ((List.replicate 2500 (0 : Nat)).length + ICON_CHUNK_SIZE - 1)
                / ICON_CHUNK_SIZE
        ∧ chunks.map IconChunkPacket.data_length
            = List.replicate
                (((List.replicate 2500 (0 : Nat)).length + ICON_CHUNK_SIZE - 1)
                    / ICON_CHUNK_SIZE - 1)
                ICON_CHUNK_SIZE
              ++ [(List.replicate 2500 (0 : Nat)).length
                    - (((List.replicate 2500 (0 : Nat)).length
                          + ICON_CHUNK_SIZE - 1) / ICON_CHUNK_SIZE - 1)
                        * ICON_CHUNK_SIZE]
        ∧ (chunks.map IconChunkPacket.data).flatten
            = List.replicate 2500 (0 : Nat)
        ∧ endPkt.total_size = (List.replicate 2500 (0 : Nat)).length)
      ∧ ∃ pkts,
        usb_send_stats_upload true (List.replicate 961 (7 : Nat)) 42 = .ok pkts
        ∧ pkts.length
            = ((List.replicate 961 (7 : Nat)).length + USB_STATS_CHUNK_SIZE - 1)
                / USB_STATS_CHUNK_SIZE
        ∧ (∀ p ∈ pkts, p.total_chunks
            = ((List.replicate 961 (7 : Nat)).length + USB_STATS_CHUNK_SIZE - 1)
                / USB_STATS_CHUNK_SIZE)
        ∧ (pkts.map UsbStatsUploadPacket.data).flatten
            = List.replicate 961 (7 : Nat)) :=
  ⟨by rw [List.length_replicate]; omega,
   C1_chunked_sender "ULUS10041" (List.replicate 2500 0) (List.replicate 961 7) 42
     (by rw [List.length_replicate]; omega)
     (by rw [List.length_replicate, ICON_CHUNK_SIZE]; omega)
     (by rw [List.length_replicate]; omega)
     (by rw [List.length_replicate, USB_STATS_CHUNK_SIZE]; omega)⟩

/-! ### `usb_send_icon` (usb/src/usb_protocol.c, lines 192-256)

`USB_ICON_CHUNK_SIZE` is 450 and `USB_MAX_PACKET` is 512 (usb_protocol.h).
The C function rejects a NULL buffer, a zero size, or `icon_size > 65535`
with `-2`, computes `total_chunks = ceil(icon_size / 450)`, rejects
`total_chunks > 255` with `-3`, then runs `while (offset < icon_size)`
emitting fixed-size `UsbIconChunkPacket` records (476 bytes of fields).
A NULL pointer is modelled as `none`; `usb_driver_send` is modelled as
succeeding (its failure aborts the loop with the error code). -/

def USB_ICON_CHUNK_SIZE : Nat := 450

def USB_MAX_PACKET : Nat := 512

structure UsbIconChunkPacket where
  game_id : String
  total_size : Nat
  chunk_offset : Nat
  chunk_size : Nat
  chunk_num : Nat
  total_chunks : Nat
  data : List Nat
  deriving Repr, DecidableEq

/-- Wire size of a `UsbIconChunkPacket`: 8-byte header, 10-byte game id,
three `uint16_t` fields, two `uint8_t` fields, 450 data bytes. -/
def usbIconChunkPacketWireSize : Nat :=
  8 + 10 + 2 + 2 + 2 + 1 + 1 + USB_ICON_CHUNK_SIZE

/-- The `while (offset < icon_size)` loop of `usb_send_icon`;
`rest` is the unsent suffix `icon_data + offset`. -/
def usb_send_icon_loop (gid : String) (isize tc : Nat) (offset chunkNum : Nat)
    (rest : List Nat) : List UsbIconChunkPacket :=
  match rest with
  | [] => []
  | b :: bs =>
      { game_id := gid
        total_size := isize % 2 ^ 16
        chunk_offset := offset % 2 ^ 16
        chunk_size := min USB_ICON_CHUNK_SIZE (b :: bs).length % 2 ^ 16
        chunk_num := chunkNum % 2 ^ 8
        total_chunks := tc % 2 ^ 8
        data := (b :: bs).take USB_ICON_CHUNK_SIZE } ::
      usb_send_icon_loop gid isize tc
        (offset + min USB_ICON_CHUNK_SIZE (b :: bs).length) (chunkNum + 1)
        ((b :: bs).drop USB_ICON_CHUNK_SIZE)
termination_by rest.length
decreasing_by simp [List.length_drop, USB_ICON_CHUNK_SIZE]; omega

def usb_send_icon (connected : Bool) (gid : String)
    (icon_data : Option (List Nat)) : Except Int (List UsbIconChunkPacket) :=
  if !connected then .error (-1)
  else
    match icon_data with
    | none => .error (-2)
    | some data =>
      if data.length = 0 ∨ data.length > 65535 then .error (-2)
      else if (data.length + USB_ICON_CHUNK_SIZE - 1) / USB_ICON_CHUNK_SIZE
          > 255 then .error (-3)
      else .ok (usb_send_icon_loop gid data.length
        ((data.length + USB_ICON_CHUNK_SIZE - 1) / USB_ICON_CHUNK_SIZE)
        0 0 data)

theorem usb_send_icon_loop_spec (gid : String) (isize tc : Nat) :
    ∀ (n : Nat) (rest : List Nat), rest.length = n → ∀ offset chunkNum : Nat,
      (usb_send_icon_loop gid isize tc offset chunkNum rest).length
          = (rest.length + USB_ICON_CHUNK_SIZE - 1) / USB_ICON_CHUNK_SIZE
        ∧ ∀ p ∈ usb_send_icon_loop gid isize tc offset chunkNum rest,
            p.total_chunks = tc % 2 ^ 8 := by
  intro n
  induction n using Nat.strong_induction_on with
  | _ n ih =>
    rintro rest rfl offset chunkNum
    cases rest with
    | nil =>
      refine ⟨?_, ?_⟩ <;>
        simp [usb_send_icon_loop, USB_ICON_CHUNK_SIZE]
    | cons b bs =>
      have hlt : ((b :: bs).drop USB_ICON_CHUNK_SIZE).length < (b :: bs).length := by
        simp only [List.length_drop, List.length_cons, USB_ICON_CHUNK_SIZE]
        omega
      have hih := ih _ hlt ((b :: bs).drop USB_ICON_CHUNK_SIZE) rfl
        (offset + min USB_ICON_CHUNK_SIZE (b :: bs).length) (chunkNum + 1)
      have hceil : ((b :: bs).length + USB_ICON_CHUNK_SIZE - 1)
            / USB_ICON_CHUNK_SIZE
          = (((b :: bs).drop USB_ICON_CHUNK_SIZE).length
              + USB_ICON_CHUNK_SIZE - 1) / USB_ICON_CHUNK_SIZE + 1 := by
        simp only [List.length_cons, List.length_drop, USB_ICON_CHUNK_SIZE]
        omega
      rw [usb_send_icon_loop, hceil]
      refine ⟨?_, ?_⟩
      · simp only [List.length_cons] at hih
        simp only [List.length_cons, hih.1]
      · intro p hp
        rcases List.mem_cons.mp hp with h | h
        · rw [h]
        · exact hih.2 p h

/-- C10: `usb_send_icon` rejects a null buffer, a zero size, and any
`icon_size > 65535` with `-2` before emitting anything; for every accepted
size (1..65535) the chunk count `ceil(icon_size/450)` is at most 146, so the
`-3` branch (`total_chunks > 255`) is unreachable and the call succeeds,
emitting exactly `ceil(icon_size/450)` chunks, each declaring that count;
every chunk packet is a fixed 476-byte record, within the 512-byte USB
frame. -/
theorem C10_usb_send_icon_guards (gid : String) (data : List Nat)
    (h1 : 1 ≤ data.length) (h2 : data.length ≤ 65535) :
    usb_send_icon true gid none = Except.error (-2)
    ∧ (∀ d : List Nat, d.length = 0 →
        usb_send_icon true gid (some d) = Except.error (-2))
    ∧ (∀ d : List Nat, d.length > 65535 →
        usb_send_icon true gid (some d) = Except.error (-2))
    ∧ (data.length + USB_ICON_CHUNK_SIZE - 1) / USB_ICON_CHUNK_SIZE ≤ 146
    ∧ (∃ pkts, usb_send_icon true gid (some data) = Except.ok pkts
        ∧ pkts.length
            = (data.length + USB_ICON_CHUNK_SIZE - 1) / USB_ICON_CHUNK_SIZE
        ∧ ∀ p ∈ pkts, p.total_chunks
            = (data.length + USB_ICON_CHUNK_SIZE - 1) / USB_ICON_CHUNK_SIZE)
    ∧ usbIconChunkPacketWireSize = 476 ∧ usbIconChunkPacketWireSize ≤ USB_MAX_PACKET := by
  have hceil : (data.length + USB_ICON_CHUNK_SIZE - 1) / USB_ICON_CHUNK_SIZE
      ≤ 146 := by
    simp only [USB_ICON_CHUNK_SIZE]
    omega
  refine ⟨rfl, ?_, ?_, hceil, ?_, rfl, by norm_num [usbIconChunkPacketWireSize,
    USB_ICON_CHUNK_SIZE, USB_MAX_PACKET]⟩
  · intro d hd
    simp only [usb_send_icon, Bool.not_true, Bool.false_eq_true, if_false]
    rw [if_pos (Or.inl hd)]
  · intro d hd
    simp only [usb_send_icon, Bool.not_true, Bool.false_eq_true, if_false]
    rw [if_pos (Or.inr hd)]
  · have hspec := usb_send_icon_loop_spec gid data.length
      ((data.length + USB_ICON_CHUNK_SIZE - 1) / USB_ICON_CHUNK_SIZE)
      data.length data rfl 0 0
    refine ⟨usb_send_icon_loop gid data.length
        ((data.length + USB_ICON_CHUNK_SIZE - 1) / USB_ICON_CHUNK_SIZE)
        0 0 data, ?_, hspec.1, ?_⟩
    · simp only [usb_send_icon, Bool.not_true, Bool.false_eq_true, if_false]
      rw [if_neg (by omega), if_neg (by omega)]
    · intro p hp
      rw [hspec.2 p hp]
      exact Nat.mod_eq_of_lt (by omega)

/-- Witness for `C10_usb_send_icon_guards` at the maximal accepted size
65535 (146 chunks). -/
theorem C10_usb_send_icon_guards_witness :
    1 ≤ (List.replicate 65535 (0 : Nat)).length
    ∧ ((List.replicate 65535 (0 : Nat)).length + USB_ICON_CHUNK_SIZE - 1)
        / USB_ICON_CHUNK_SIZE ≤ 146 := by
  refine ⟨by rw [List.length_replicate]; omega, ?_⟩
  exact (C10_usb_send_icon_guards "ULUS10041" (List.replicate 65535 0)
    (by rw [List.length_replicate]; omega)
    (by rw [List.length_replicate])).2.2.2.1

/-! ### USB endpoint descriptor tables (usb/src/usb_driver.c, lines 116-206)

`endpdesc_hi` and `endpdesc_full` are the high-speed and full-speed endpoint
descriptor arrays; `interdesc_hi`/`interdesc_full` the interface
descriptors.  The control endpoint is endpoint 0 of the 4-entry
`g_endpoints` array and has no entry in these tables.  Direction bit 7 of
`bEndpointAddress` distinguishes IN (`0x80` set) from OUT;
`bmAttributes = 2` marks a bulk endpoint. -/

structure EndpointDescriptor where
  bLength : Nat
  bDescriptorType : Nat
  bEndpointAddress : Nat
  bmAttributes : Nat
  wMaxPacketSize : Nat
  bInterval : Nat
  deriving Repr, DecidableEq

structure InterfaceDescriptor where
  bLength : Nat
  bDescriptorType : Nat
  bInterfaceNumber : Nat
  bAlternateSetting : Nat
  bNumEndpoints : Nat
  bInterfaceClass : Nat
  bInterfaceSubClass : Nat
  bInterfaceProtocol : Nat
  iInterface : Nat
  deriving Repr, DecidableEq

def interdesc_hi : InterfaceDescriptor :=
  ⟨9, 4, 0, 0, 3, 0xFF, 0x1, 0xFF, 1⟩

def interdesc_full : InterfaceDescriptor :=
  ⟨9, 4, 0, 0, 3, 0xFF, 0x1, 0xFF, 1⟩

def endpdesc_hi : List EndpointDescriptor :=
  [⟨7, 5, 0x81, 2, 512, 0⟩, ⟨7, 5, 2, 2, 512, 0⟩, ⟨7, 5, 3, 2, 512, 0⟩]

def endpdesc_full : List EndpointDescriptor :=
  [⟨7, 5, 0x81, 2, 64, 0⟩, ⟨7, 5, 2, 2, 64, 0⟩, ⟨7, 5, 3, 2, 64, 0⟩]

def isBulkIn (e : EndpointDescriptor) : Prop :=
  e.bmAttributes = 2 ∧ 0x80 ≤ e.bEndpointAddress

def isBulkOut (e : EndpointDescriptor) : Prop :=
  e.bmAttributes = 2 ∧ e.bEndpointAddress < 0x80

instance (e : EndpointDescriptor) : Decidable (isBulkIn e) := by
  unfold isBulkIn; infer_instance

instance (e : EndpointDescriptor) : Decidable (isBulkOut e) := by
  unfold isBulkOut; infer_instance

/-- C9 counterexample: the registered descriptor tables contain *two*
bulk-OUT endpoints (addresses 2 and 3, copied from RemoteJoyLite), not
exactly one, so the claimed "exactly one bulk-IN and one bulk-OUT" fails. -/
theorem C9_endpoint_counterexample :
    endpdesc_hi.countP (fun e => decide (isBulkOut e)) = 2
    ∧ (2 : Nat) ≠ 1 := by
  constructor
  · decide
  · decide

/-- C9 amended: the descriptor tables expose exactly one bulk-IN endpoint
(0x81) and two bulk-OUT endpoints (2 and 3) besides the control endpoint;
the high-speed and full-speed tables have the same logical shape — identical
interface descriptors (3 endpoints each) and endpoint entries differing
only in `wMaxPacketSize` (512 at high speed, 64 at full speed). -/
theorem C9_descriptor_tables :
    endpdesc_hi.countP (fun e => decide (isBulkIn e)) = 1
    ∧ endpdesc_hi.countP (fun e => decide (isBulkOut e)) = 2
    ∧ endpdesc_full.countP (fun e => decide (isBulkIn e)) = 1
    ∧ endpdesc_full.countP (fun e => decide (isBulkOut e)) = 2
    ∧ interdesc_hi = interdesc_full
    ∧ interdesc_hi.bNumEndpoints = endpdesc_hi.length
    ∧ endpdesc_full
        = endpdesc_hi.map (fun e => { e with wMaxPacketSize := 64 })
    ∧ (∀ e ∈ endpdesc_hi, e.wMaxPacketSize = 512)
    ∧ (∀ e ∈ endpdesc_full, e.wMaxPacketSize = 64) := by
  refine ⟨by decide, by decide, by decide, by decide, by decide, by decide,
    by decide, by decide, by decide⟩

/-! ### `usb_driver_receive` / `usb_bulk_recv` (usb/src/usb_driver.c 560-614)

`usb_driver_receive` discards its `timeout_ms` argument (`(void)timeout_ms`)
and calls `usb_bulk_recv`, which submits a bulk-OUT request and then calls
`sceKernelWaitEventFlag(g_trans_event, USB_TRANS_BULKOUT_DONE, ..., NULL)` —
a NULL timeout pointer, i.e. an unbounded wait.  The completion callback
fires only when the host actually sends bulk-OUT data, so with no pending
host data the call blocks the calling thread indefinitely.  The model makes
the environment explicit: `hostData` is the bulk-OUT payload the host
delivers during the call (`none` = the host sends nothing). -/

inductive UsbRecvOutcome
  | result (ret : Int)
  | blockedForever
  deriving Repr, DecidableEq

/-- The timeout pointer `usb_bulk_recv` hands to `sceKernelWaitEventFlag`
(usb_driver.c lines 591-593): the C code passes `NULL` (wait forever). -/
def usb_bulk_recv_waitTimeout : Option Nat := none

def usb_bulk_recv (connected : Bool) (hostData : Option (List Nat))
    (maxlen : Nat) : UsbRecvOutcome :=
  if !connected then .result (-1)
  else
    match usb_bulk_recv_waitTimeout, hostData with
    | none, none => .blockedForever
    | some _, none => .result (-1)
    | _, some d =>
      if 0 < d.length then .result (Int.ofNat (min d.length (min maxlen 512)))
      else .result (-1)

def usb_driver_receive (connected : Bool) (hostData : Option (List Nat))
    (len timeout_ms : Nat) : UsbRecvOutcome :=
  usb_bulk_recv connected hostData len

/-- C6: the claim says `usb_driver_receive` with a zero timeout is
non-blocking; on the code the `timeout_ms` argument is explicitly discarded
and the wait uses a NULL (infinite) timeout, so with no pending host data
the call blocks forever — the code contradicts its own caller comment
("Non-blocking receive - returns immediately if no data",
usb_protocol.c line 99). -/
theorem C6_receive_ignores_timeout :
    usb_driver_receive true none 512 0 = UsbRecvOutcome.blockedForever
    ∧ usb_bulk_recv_waitTimeout = none
    ∧ ∀ (timeout_ms : Nat) (c : Bool) (hd : Option (List Nat)) (len : Nat),
        usb_driver_receive c hd len timeout_ms = usb_driver_receive c hd len 0 := by
  exact ⟨rfl, rfl, fun _ _ _ _ => rfl⟩

/-! ### Byte-level decoding helpers

Buffers are lists of bytes (`List Nat`); multi-byte fields are read
little-endian (the PSP is a little-endian MIPS).  Out-of-range reads yield 0
and each byte is reduced `% 256`, so the decoders are total. -/

def le16 (b : List Nat) (i : Nat) : Nat :=
  b.getD i 0 % 256 + 256 * (b.getD (i + 1) 0 % 256)

def le32 (b : List Nat) (i : Nat) : Nat :=
  le16 b i + 65536 * le16 b (i + 2)

def le64 (b : List Nat) (i : Nat) : Nat :=
  le32 b i + 4294967296 * le32 b (i + 4)

/-- `copy_str` (network.c lines 65-80) / `strncpy`+NUL: copy the
NUL-terminated prefix, truncated to `dst_size - 1` bytes. -/
def copy_str (dst_size : Nat) (src : List Nat) : List Nat :=
  (src.takeWhile (fun b => b ≠ 0)).take (dst_size - 1)

/-! ### `network_poll_message` (net/src/network.c, lines 333-378)

The datagram receiver: a 32-byte receive buffer, `PacketHeader` is 5 packed
bytes (`char magic[4]` = "PSPR" plus a 1-byte type).  An `Ack` (0x10)
relearns the desktop address from the datagram's source; an `IconRequest`
(0x11) long enough to carry its 10-byte payload surfaces the game id;
everything else — nothing received, short frame, wrong magic, unknown tag,
short icon request — returns 0 and leaves all state untouched. -/

def PROTOCOL_MAGIC : List Nat := [0x50, 0x53, 0x50, 0x52]

def MSG_ACK : Nat := 0x10
def MSG_ICON_REQUEST : Nat := 0x11
def MSG_DISCOVERY_REQUEST : Nat := 0x20

def packetHeaderSize : Nat := 5
def iconRequestPacketSize : Nat := 10

/-- The session state `network_poll_message` can mutate: the learned
desktop address `g_desktop_addr` (host-order IP and port). -/
structure NetSession where
  addrIp : Nat
  addrPort : Nat
  deriving Repr, DecidableEq

/-- One call to `network_poll_message`.  `buf` is the datagram delivered by
`sceNetInetRecvfrom` (an empty list models "nothing available", the
`ret <= 0` path); `fromIp`/`fromPort` its source address.  Result: the C
return value, the session state after the call, and the surfaced game id
for an icon request. -/
def network_poll_message (sockOpen : Bool) (buf : List Nat)
    (fromIp fromPort : Nat) (s : NetSession) :
    Nat × NetSession × Option (List Nat) :=
  if !sockOpen then (0, s, none)
  else if buf.length = 0 then (0, s, none)
  else if buf.length < packetHeaderSize then (0, s, none)
  else if buf.take 4 ≠ PROTOCOL_MAGIC then (0, s, none)
  else if buf.getD 4 0 % 256 = MSG_ACK then (1, ⟨fromIp, fromPort⟩, none)
  else if buf.getD 4 0 % 256 = MSG_ICON_REQUEST then
    if packetHeaderSize + iconRequestPacketSize ≤ buf.length then
      (2, s, some (copy_str 10 (buf.drop packetHeaderSize)))
    else (0, s, none)
  else (0, s, none)

/-! ### `usb_poll_message` and stats streaming
(usb/src/usb_protocol.c, lines 23-32, 90-190, 330-365)

`UsbPacketHeader` is 8 bytes (`uint32_t` magic "PSPD" = 0x50535044, 1-byte
type, 1-byte reserved, `uint16_t` length).  A `STATS_RESPONSE` (0x12) packet
of full size (8+8+4+2+2+2+480 = 506 bytes) feeds the streaming reassembly
state `g_stats_stream`, which writes chunk payloads straight to
`ms0:/seplugins/pspdrp/usage_log.json`.  The file sink is modelled by
whether the file exists and its byte count (`sceIoWrite` is modelled as
writing all `data_length` bytes; `sceIoOpen` success is the explicit
environment input `openOk`).  The ACK sent back per chunk carries no state
and is not modelled.  `uint16_t`/`uint32_t` counters wrap via `% 2^16` /
`% 2^32` exactly as in C. -/

def USB_PACKET_MAGIC : Nat := 0x50535044
def USB_PKT_ACK : Nat := 0x10
def USB_PKT_ICON_REQUEST : Nat := 0x11
def USB_PKT_STATS_RESPONSE : Nat := 0x12

def usbPacketHeaderSize : Nat := 8
def usbIconRequestPacketSize : Nat := 24
def usbStatsResponsePacketSize : Nat := 506

/-- `g_stats_stream` (usb_protocol.c lines 23-32); `fdOpen` models
`fd >= 0`. -/
structure StatsStream where
  fdOpen : Bool
  total_bytes : Nat
  bytes_written : Nat
  total_chunks : Nat
  received_chunks : Nat
  last_updated : Nat
  active : Bool
  verified : Bool
  deriving Repr, DecidableEq

/-- The zero-initialised global with `.fd = -1, .active = 0`. -/
def initStatsStream : StatsStream :=
  ⟨false, 0, 0, 0, 0, 0, false, false⟩

/-- The `usage_log.json` sink: existence and size. -/
structure UsageLogFile where
  present : Bool
  size : Nat
  deriving Repr, DecidableEq

/-- Decoded header fields of a `UsbStatsResponsePacket` (usb_protocol.h
lines 113-121); the 480 data bytes only matter through `data_length`,
which is what `sceIoWrite` is given. -/
structure UsbStatsRespFields where
  last_updated : Nat
  total_bytes : Nat
  chunk_index : Nat
  total_chunks : Nat
  data_length : Nat
  deriving Repr, DecidableEq

def decodeStatsResponse (buf : List Nat) : UsbStatsRespFields :=
  { last_updated := le64 buf 8
    total_bytes := le32 buf 16
    chunk_index := le16 buf 20
    total_chunks := le16 buf 22
    data_length := le16 buf 24 }

/-- First phase of the `USB_PKT_STATS_RESPONSE` branch (usb_protocol.c
lines 131-147): on the first chunk, or with no active stream, (re)open the
file truncated and reset the stream state. -/
def stats_restart (openOk : Bool) (p : UsbStatsRespFields)
    (s : StatsStream) (f : UsageLogFile) : StatsStream × UsageLogFile :=
  if p.chunk_index = 0 ∨ s.active = false then
    (({ fdOpen := openOk
        total_bytes := p.total_bytes
        bytes_written := 0
        total_chunks := p.total_chunks
        received_chunks := 0
        last_updated := p.last_updated
        active := openOk
        verified := false } : StatsStream),
     if openOk then ({ present := true, size := 0 } : UsageLogFile) else f)
  else (s, f)

/-- Second phase (lines 149-157): write the chunk payload to the file and
count the chunk. -/
def stats_write (p : UsbStatsRespFields) (sf : StatsStream × UsageLogFile) :
    StatsStream × UsageLogFile :=
  if sf.1.fdOpen = true ∧ 0 < p.data_length then
    ({ sf.1 with
        bytes_written := (sf.1.bytes_written + p.data_length) % 2 ^ 32
        received_chunks := (sf.1.received_chunks + 1) % 2 ^ 16 },
     { sf.2 with size := sf.2.size + p.data_length })
  else sf

/-- Third phase (lines 169-183): on the last declared chunk, close the file
and verify the byte count; on mismatch mark unverified and delete the
file. -/
def stats_finish (sf : StatsStream × UsageLogFile) :
    StatsStream × UsageLogFile :=
  if sf.1.total_chunks ≤ sf.1.received_chunks ∧ sf.1.fdOpen = true then
    if sf.1.bytes_written = sf.1.total_bytes then
      ({ sf.1 with fdOpen := false, verified := true }, sf.2)
    else
      ({ sf.1 with fdOpen := false, verified := false },
       { sf.2 with present := false })
  else sf

/-- The whole `USB_PKT_STATS_RESPONSE` branch of `usb_poll_message`
(usb_protocol.c lines 126-185); the per-chunk ACK carries no state and is
not modelled. -/
def stats_response_step (openOk : Bool) (p : UsbStatsRespFields)
    (s : StatsStream) (f : UsageLogFile) : StatsStream × UsageLogFile :=
  stats_finish (stats_write p (stats_restart openOk p s f))

/-- One call to `usb_poll_message`; `buf` is what `usb_driver_receive`
returned (empty = `ret <= 0`).  Result: the C return value, the streaming
state and file after the call, and the surfaced game id for an icon
request. -/
def usb_poll_message (connected openOk : Bool) (buf : List Nat)
    (s : StatsStream) (f : UsageLogFile) :
    Nat × StatsStream × UsageLogFile × Option (List Nat) :=
  if !connected then (0, s, f, none)
  else if buf.length = 0 then (0, s, f, none)
  else if buf.length < usbPacketHeaderSize then (0, s, f, none)
  else if le32 buf 0 ≠ USB_PACKET_MAGIC then (0, s, f, none)
  else if buf.getD 4 0 % 256 = USB_PKT_ACK then (USB_PKT_ACK, s, f, none)
  else if buf.getD 4 0 % 256 = USB_PKT_ICON_REQUEST then
    (USB_PKT_ICON_REQUEST, s, f,
      if usbIconRequestPacketSize ≤ buf.length then
        some (copy_str 10 (buf.drop usbPacketHeaderSize))
      else none)
  else if buf.getD 4 0 % 256 = USB_PKT_STATS_RESPONSE then
    if usbStatsResponsePacketSize ≤ buf.length then
      (USB_PKT_STATS_RESPONSE,
       (stats_response_step openOk (decodeStatsResponse buf) s f).1,
       (stats_response_step openOk (decodeStatsResponse buf) s f).2, none)
    else (USB_PKT_STATS_RESPONSE, s, f, none)
  else (0, s, f, none)

/-- `usb_poll_stats_response` (usb_protocol.c lines 330-365).  Result: the C
return value, the streaming state after the call, and the
(`remote_last_updated`, `json_len_out`) outputs when the transfer is
complete. -/
def usb_poll_stats_response (connected : Bool) (s : StatsStream) :
    Int × StatsStream × Option (Nat × Nat) :=
  if !connected then (-1, s, none)
  else if s.active = false then (-1, s, none)
  else if s.total_chunks ≤ s.received_chunks then
    if s.verified = true then
      (1, { s with active := false }, some (s.last_updated, s.bytes_written))
    else
      (-2, { s with active := false }, some (s.last_updated, s.bytes_written))
  else (0, s, none)

/-- The reachable-state invariant of the streaming reassembly: the stream is
marked verified only when the written byte count equals the declared total
(and the file is closed). -/
def statsInv (s : StatsStream) : Prop :=
  s.verified = true → s.bytes_written = s.total_bytes ∧ s.fdOpen = false

theorem statsInv_init : statsInv initStatsStream := by
  intro h
  simp [initStatsStream] at h

theorem stats_response_step_inv (openOk : Bool) (p : UsbStatsRespFields)
    (s : StatsStream) (f : UsageLogFile) (h : statsInv s) :
    statsInv (stats_response_step openOk p s f).1 := by
  have h1 : statsInv (stats_restart openOk p s f).1 := by
    unfold stats_restart
    by_cases c : p.chunk_index = 0 ∨ s.active = false
    · rw [if_pos c]
      intro hv
      simp at hv
    · rw [if_neg c]
      exact h
  have h2 : statsInv (stats_write p (stats_restart openOk p s f)).1 := by
    unfold stats_write
    split_ifs with c
    · intro hv
      simp only at hv
      exact absurd c.1 (by simp [(h1 hv).2])
    · exact h1
  unfold stats_response_step stats_finish
  split_ifs with c d
  · intro _
    exact ⟨d, rfl⟩
  · intro hv
    simp at hv
  · exact h2

theorem usb_poll_message_inv (connected openOk : Bool) (buf : List Nat)
    (s : StatsStream) (f : UsageLogFile) (h : statsInv s) :
    statsInv (usb_poll_message connected openOk buf s f).2.1 := by
  unfold usb_poll_message
  split_ifs <;> first
    | exact h
    | exact stats_response_step_inv openOk (decodeStatsResponse buf) s f h

/-- One environment input per `usb_poll_message` call of the worker loop. -/
structure UsbPollInput where
  connected : Bool
  openOk : Bool
  buf : List Nat

/-- A run of the worker loop's receive path: fold `usb_poll_message` over a
sequence of received buffers, threading the streaming state and the file. -/
def usb_poll_run (inputs : List UsbPollInput)
    (sf : StatsStream × UsageLogFile) : StatsStream × UsageLogFile :=
  inputs.foldl
    (fun sf i =>
      ((usb_poll_message i.connected i.openOk i.buf sf.1 sf.2).2.1,
       (usb_poll_message i.connected i.openOk i.buf sf.1 sf.2).2.2.1))
    sf

theorem usb_poll_run_inv (inputs : List UsbPollInput)
    (sf : StatsStream × UsageLogFile) (h : statsInv sf.1) :
    statsInv (usb_poll_run inputs sf).1 := by
  induction inputs generalizing sf with
  | nil => exact h
  | cons i rest ih =>
    exact ih _ (usb_poll_message_inv i.connected i.openOk i.buf sf.1 sf.2 h)

/-- C2: on the USB binding, when the last declared chunk of a stats transfer
arrives and the byte count written to the sink does not match the declared
`total_bytes`, the partial file is deleted, the stream is marked
unverified, and `usb_poll_stats_response` reports `-2`, never `1`; and over
any run of the receive path from the initial state, `1` is returned only
when the written byte count equals the declared total. -/
theorem C2_stats_transfer_verification
    (openOk : Bool) (p : UsbStatsRespFields) (s : StatsStream)
    (f : UsageLogFile)
    (hact : s.active = true) (hfd : s.fdOpen = true)
    (hidx : p.chunk_index ≠ 0) (hdl : 0 < p.data_length)
    (hlast : s.total_chunks ≤ (s.received_chunks + 1) % 2 ^ 16)
    (hmis : (s.bytes_written + p.data_length) % 2 ^ 32 ≠ s.total_bytes) :
    ((stats_response_step openOk p s f).2.present = false
      ∧ (stats_response_step openOk p s f).1.verified = false
      ∧ (usb_poll_stats_response true (stats_response_step openOk p s f).1).1
          = -2
      ∧ ∀ c : Bool,
          (usb_poll_stats_response c (stats_response_step openOk p s f).1).1
            ≠ 1)
    ∧ ∀ (f0 : UsageLogFile) (inputs : List UsbPollInput) (c : Bool),
        (usb_poll_stats_response c
            (usb_poll_run inputs (initStatsStream, f0)).1).1 = 1 →
        (usb_poll_run inputs (initStatsStream, f0)).1.bytes_written
          = (usb_poll_run inputs (initStatsStream, f0)).1.total_bytes := by
  constructor
  · have h1 : stats_restart openOk p s f = (s, f) := by
      unfold stats_restart
      rw [if_neg (by simp [hidx, hact])]
    have h2 : stats_write p (s, f)
        = ({ s with
              bytes_written := (s.bytes_written + p.data_length) % 2 ^ 32
              received_chunks := (s.received_chunks + 1) % 2 ^ 16 },
           { f with size := f.size + p.data_length }) := by
      unfold stats_write
      rw [if_pos ⟨hfd, hdl⟩]
    have h3 : stats_response_step openOk p s f
        = ({ s with
              bytes_written := (s.bytes_written + p.data_length) % 2 ^ 32
              received_chunks := (s.received_chunks + 1) % 2 ^ 16
              fdOpen := false
              verified := false },
           { f with size := f.size + p.data_length, present := false }) := by
      unfold stats_response_step
      rw [h1, h2]
      unfold stats_finish
      rw [if_pos ⟨hlast, hfd⟩, if_neg hmis]
    rw [h3]
    refine ⟨rfl, rfl, ?_, ?_⟩
    · unfold usb_poll_stats_response
      rw [if_neg (by simp), if_neg (by simp [hact]), if_pos hlast,
        if_neg (by simp)]
    · intro c
      unfold usb_poll_stats_response
      split_ifs <;> simp_all
  · intro f0 inputs c h1
    have hinv := usb_poll_run_inv inputs (initStatsStream, f0) statsInv_init
    unfold usb_poll_stats_response at h1
    split_ifs at h1 with a b d e
    · exact absurd h1 (by norm_num)
    · exact absurd h1 (by norm_num)
    · exact (hinv e).1
    · exact absurd h1 (by norm_num)
    · exact absurd h1 (by norm_num)

/-- Witness for `C2_stats_transfer_verification`: a mid-transfer state
expecting 5 bytes in 2 chunks that has written 0 bytes receives a final
3-byte chunk — 3 ≠ 5, so the file is discarded and polling reports `-2`. -/
theorem C2_stats_transfer_verification_witness :
    (⟨true, 5, 0, 2, 1, 0, true, false⟩ : StatsStream).active = true
    ∧ (((stats_response_step true ⟨0, 5, 1, 2, 3⟩
          ⟨true, 5, 0, 2, 1, 0, true, false⟩ ⟨true, 0⟩).2.present = false
      ∧ (stats_response_step true ⟨0, 5, 1, 2, 3⟩
          ⟨true, 5, 0, 2, 1, 0, true, false⟩ ⟨true, 0⟩).1.verified = false
      ∧ (usb_poll_stats_response true (stats_response_step true ⟨0, 5, 1, 2, 3⟩
          ⟨true, 5, 0, 2, 1, 0, true, false⟩ ⟨true, 0⟩).1).1 = -2
      ∧ ∀ c : Bool,
          (usb_poll_stats_response c (stats_response_step true ⟨0, 5, 1, 2, 3⟩
            ⟨true, 5, 0, 2, 1, 0, true, false⟩ ⟨true, 0⟩).1).1 ≠ 1)
    ∧ ∀ (f0 : UsageLogFile) (inputs : List UsbPollInput) (c : Bool),
        (usb_poll_stats_response c
            (usb_poll_run inputs (initStatsStream, f0)).1).1 = 1 →
        (usb_poll_run inputs (initStatsStream, f0)).1.bytes_written
          = (usb_poll_run inputs (initStatsStream, f0)).1.total_bytes) :=
  ⟨rfl,
   C2_stats_transfer_verification true ⟨0, 5, 1, 2, 3⟩
     ⟨true, 5, 0, 2, 1, 0, true, false⟩ ⟨true, 0⟩
     rfl rfl (by decide) (by decide) (by decide) (by decide)⟩

/-- C3: on both transports, a received buffer shorter than the packet header
or not beginning with the protocol magic is ignored — the poll returns 0 and
every piece of session state is left unchanged — and so is a well-framed
packet with an unrecognised type tag. -/
theorem C3_malformed_frames_ignored
    (nbuf ubuf : List Nat) (fromIp fromPort : Nat) (s : NetSession)
    (st : StatsStream) (f : UsageLogFile) (sockOpen connected openOk : Bool)
    (hn : nbuf.length < packetHeaderSize ∨ nbuf.take 4 ≠ PROTOCOL_MAGIC)
    (hu : ubuf.length < usbPacketHeaderSize ∨ le32 ubuf 0 ≠ USB_PACKET_MAGIC) :
    network_poll_message sockOpen nbuf fromIp fromPort s = (0, s, none)
    ∧ usb_poll_message connected openOk ubuf st f = (0, st, f, none)
    ∧ (∀ buf : List Nat, buf.getD 4 0 % 256 ≠ MSG_ACK →
        buf.getD 4 0 % 256 ≠ MSG_ICON_REQUEST →
        network_poll_message sockOpen buf fromIp fromPort s = (0, s, none))
    ∧ (∀ buf : List Nat, buf.getD 4 0 % 256 ≠ USB_PKT_ACK →
        buf.getD 4 0 % 256 ≠ USB_PKT_ICON_REQUEST →
        buf.getD 4 0 % 256 ≠ USB_PKT_STATS_RESPONSE →
        usb_poll_message connected openOk buf st f = (0, st, f, none)) := by
  refine ⟨?_, ?_, ?_, ?_⟩
  · unfold network_poll_message
    rcases hn with h | h <;> split_ifs <;> rfl
  · unfold usb_poll_message
    rcases hu with h | h <;> split_ifs <;> rfl
  · intro buf h1 h2
    unfold network_poll_message
    split_ifs <;> rfl
  · intro buf h1 h2 h3
    unfold usb_poll_message
    split_ifs <;> rfl

/-- Witness for `C3_malformed_frames_ignored`: a 3-byte garbage datagram on
the network side and a frame with valid length but wrong magic on the USB
side. -/
theorem C3_malformed_frames_ignored_witness :
    ([1, 2, 3] : List Nat).length < packetHeaderSize
    ∧ (network_poll_message true [1, 2, 3] 0 0 ⟨0, 0⟩ = (0, ⟨0, 0⟩, none)
      ∧ usb_poll_message true true (List.replicate 8 0xAA) initStatsStream
          ⟨false, 0⟩ = (0, initStatsStream, ⟨false, 0⟩, none)
      ∧ (∀ buf : List Nat, buf.getD 4 0 % 256 ≠ MSG_ACK →
          buf.getD 4 0 % 256 ≠ MSG_ICON_REQUEST →
          network_poll_message true buf 0 0 ⟨0, 0⟩ = (0, ⟨0, 0⟩, none))
      ∧ (∀ buf : List Nat, buf.getD 4 0 % 256 ≠ USB_PKT_ACK →
          buf.getD 4 0 % 256 ≠ USB_PKT_ICON_REQUEST →
          buf.getD 4 0 % 256 ≠ USB_PKT_STATS_RESPONSE →
          usb_poll_message true true buf initStatsStream ⟨false, 0⟩
            = (0, initStatsStream, ⟨false, 0⟩, none))) :=
  ⟨by decide,
   C3_malformed_frames_ignored [1, 2, 3] (List.replicate 8 0xAA) 0 0 ⟨0, 0⟩
     initStatsStream ⟨false, 0⟩ true true true
     (Or.inl (by decide)) (Or.inr (by decide))⟩

/-! ### `network_handle_discovery` (net/src/network.c, lines 673-755)

`PluginConfig` mirrors config.h; C `int` flags stay `Nat` (the code compares
them against 0).  The handler answers a valid `DiscoveryRequest` (type 0x20,
5-byte header plus a 10-byte payload: `uint16_t listen_port`,
`char version[8]`) with one `DiscoveryResponse`, learns the peer address
`g_desktop_addr` from the datagram source and the advertised port, and —
when the stored configuration differs — persists the learned address with
auto-discovery cleared.  `fromIp` is the host-order source address (the
`ntohl` byte swap of `ipv4_to_str` is absorbed by working host-order);
`nickname` models `sceUtilityGetSystemParamString` (`none` = failure);
`battery` models `scePowerGetBatteryLifePercent`; `send_packet` is modelled
as delivering the response. -/

structure PluginConfig where
  enabled : Nat
  desktop_ip : String
  port : Nat
  auto_discovery : Nat
  send_icons : Nat
  psp_name : String
  poll_interval_ms : Nat
  heartbeat_interval_ms : Nat
  game_update_interval_ms : Nat
  connect_timeout_s : Nat
  send_once : Nat
  enable_logging : Nat
  vblank_wait : Nat
  offline_mode : Nat
  deriving Repr, DecidableEq

structure DiscoveryResponsePacket where
  psp_name : String
  version : String
  battery_percent : Nat
  deriving Repr, DecidableEq

def PROTOCOL_VERSION : String := "0.2.0"

/-- `ipv4_to_str` (network.c lines 82-92) on the host-order address. -/
def ipv4_to_str (ip : Nat) : String :=
  Nat.repr (ip / 2 ^ 24 % 256) ++ "." ++ Nat.repr (ip / 2 ^ 16 % 256) ++ "."
    ++ Nat.repr (ip / 2 ^ 8 % 256) ++ "." ++ Nat.repr (ip % 256)

/-- One call to `network_handle_discovery`.  Result: the C return value, the
list of `DiscoveryResponse` packets sent, the configuration after the call,
whether `config_save` was invoked, and the session state after the call. -/
def network_handle_discovery (sockOpen : Bool) (buf : List Nat)
    (fromIp battery : Nat) (nickname : Option String)
    (cfg : PluginConfig) (s : NetSession) :
    Int × List DiscoveryResponsePacket × PluginConfig × Bool × NetSession :=
  if !sockOpen then (0, [], cfg, false, s)
  else if buf.length = 0 then (0, [], cfg, false, s)
  else if buf.length < packetHeaderSize then (-1, [], cfg, false, s)
  else if buf.take 4 ≠ PROTOCOL_MAGIC then (-1, [], cfg, false, s)
  else if buf.getD 4 0 % 256 ≠ MSG_DISCOVERY_REQUEST then (-1, [], cfg, false, s)
  else
    (1,
     [{ psp_name :=
          if cfg.psp_name ≠ "" then cfg.psp_name
          else
            match nickname with
            | some n => n
            | none => "PSP"
        version := PROTOCOL_VERSION
        battery_percent := battery }],
     if cfg.desktop_ip ≠ ipv4_to_str fromIp ∨ cfg.port ≠ le16 buf 5
         ∨ cfg.auto_discovery ≠ 0 then
       { cfg with
          desktop_ip := ipv4_to_str fromIp
          port := le16 buf 5
          auto_discovery := 0 }
     else cfg,
     if cfg.desktop_ip ≠ ipv4_to_str fromIp ∨ cfg.port ≠ le16 buf 5
         ∨ cfg.auto_discovery ≠ 0 then true else false,
     (⟨fromIp, le16 buf 5⟩ : NetSession))

/-- C5: every valid `DiscoveryRequest` gets exactly one `DiscoveryResponse`
carrying the local identity (device name, protocol version, battery), the
learned peer address becomes the request's source IP and advertised port,
and exactly when the stored configuration differs, the learned address and
port are written back with auto-discovery cleared to 0. -/
theorem C5_discovery (buf : List Nat) (fromIp battery : Nat)
    (nickname : Option String) (cfg : PluginConfig) (s : NetSession)
    (hlen : packetHeaderSize + 10 ≤ buf.length)
    (hmagic : buf.take 4 = PROTOCOL_MAGIC)
    (htype : buf.getD 4 0 % 256 = MSG_DISCOVERY_REQUEST) :
    (network_handle_discovery true buf fromIp battery nickname cfg s).1 = 1
    ∧ (network_handle_discovery true buf fromIp battery nickname cfg s).2.1
        = [{ psp_name :=
               if cfg.psp_name ≠ "" then cfg.psp_name
               else
                 match nickname with
                 | some n => n
                 | none => "PSP"
             version := PROTOCOL_VERSION
             battery_percent := battery }]
    ∧ (network_handle_discovery true buf fromIp battery nickname cfg s).2.2.2.2
        = ⟨fromIp, le16 buf 5⟩
    ∧ ((cfg.desktop_ip ≠ ipv4_to_str fromIp ∨ cfg.port ≠ le16 buf 5
          ∨ cfg.auto_discovery ≠ 0) →
        (network_handle_discovery true buf fromIp battery nickname cfg s).2.2.1
            = { cfg with
                  desktop_ip := ipv4_to_str fromIp
                  port := le16 buf 5
                  auto_discovery := 0 }
          ∧ (network_handle_discovery true buf fromIp battery nickname cfg
              s).2.2.2.1 = true)
    ∧ (¬(cfg.desktop_ip ≠ ipv4_to_str fromIp ∨ cfg.port ≠ le16 buf 5
          ∨ cfg.auto_discovery ≠ 0) →
        (network_handle_discovery true buf fromIp battery nickname cfg s).2.2.1
            = cfg
          ∧ (network_handle_discovery true buf fromIp battery nickname cfg
              s).2.2.2.1 = false) := by
  simp only [packetHeaderSize] at hlen
  have hstep : network_handle_discovery true buf fromIp battery nickname cfg s
      = (1,
         [{ psp_name :=
              if cfg.psp_name ≠ "" then cfg.psp_name
              else
                match nickname with
                | some n => n
                | none => "PSP"
            version := PROTOCOL_VERSION
            battery_percent := battery }],
         if cfg.desktop_ip ≠ ipv4_to_str fromIp ∨ cfg.port ≠ le16 buf 5
             ∨ cfg.auto_discovery ≠ 0 then
           { cfg with
              desktop_ip := ipv4_to_str fromIp
              port := le16 buf 5
              auto_discovery := 0 }
         else cfg,
         if cfg.desktop_ip ≠ ipv4_to_str fromIp ∨ cfg.port ≠ le16 buf 5
             ∨ cfg.auto_discovery ≠ 0 then true else false,
         (⟨fromIp, le16 buf 5⟩ : NetSession)) := by
    unfold network_handle_discovery
    rw [if_neg (by simp), if_neg (by omega),
      if_neg (by simp only [packetHeaderSize]; omega),
      if_neg (by simp [hmagic]),
      if_neg (by simp only [ne_eq, not_not]; exact htype)]
  rw [hstep]
  by_cases hd : cfg.desktop_ip ≠ ipv4_to_str fromIp ∨ cfg.port ≠ le16 buf 5
      ∨ cfg.auto_discovery ≠ 0
  · rw [if_pos hd, if_pos hd]
    exact ⟨rfl, rfl, rfl, fun _ => ⟨rfl, rfl⟩, fun h => absurd hd h⟩
  · rw [if_neg hd, if_neg hd]
    exact ⟨rfl, rfl, rfl, fun h => absurd h hd, fun _ => ⟨rfl, rfl⟩⟩

/-- Witness for `C5_discovery`: a 15-byte request advertising port 0x1234
from 192.168.1.5, against a configuration that still has auto-discovery
enabled. -/
theorem C5_discovery_witness :
    ([0x50, 0x53, 0x50, 0x52, 0x20, 0x34, 0x12, 0, 0, 0, 0, 0, 0, 0, 0]
        : List Nat).take 4 = PROTOCOL_MAGIC
    ∧ (network_handle_discovery true
        [0x50, 0x53, 0x50, 0x52, 0x20, 0x34, 0x12, 0, 0, 0, 0, 0, 0, 0, 0]
        0xC0A80105 77 (some "MyPSP")
        ⟨1, "", 9276, 1, 1, "Handheld", 2000, 30000, 0, 0, 0, 0, 300, 0⟩
        ⟨0, 0⟩).1 = 1 := by
  refine ⟨by decide, ?_⟩
  exact (C5_discovery
    [0x50, 0x53, 0x50, 0x52, 0x20, 0x34, 0x12, 0, 0, 0, 0, 0, 0, 0, 0]
    0xC0A80105 77 (some "MyPSP")
    ⟨1, "", 9276, 1, 1, "Handheld", 2000, 30000, 0, 0, 0, 0, 300, 0⟩
    ⟨0, 0⟩ (by decide) (by decide) (by decide)).1

/-! ### `wait_for_connection` (net/src/network.c, lines 509-541)

The association wait loop: `timeout = timeout_seconds * 4` iterations, each
checking `sceNetApctlGetState`, logging the state only when it changed,
returning 0 on `PSP_NET_APCTL_STATE_GOT_IP` (4), and otherwise sleeping
300 ms (`sceKernelDelayThread(300 * 1000)`); on loop exhaustion it calls
`sceNetApctlDisconnect` and returns -1.  The environment input `states i`
is the result (return code, state) of the i-th `sceNetApctlGetState`
call. -/

def PSP_NET_APCTL_STATE_GOT_IP : Nat := 4

/-- Result of a `wait_for_connection` run: the C return value, the total
microseconds slept, whether `sceNetApctlDisconnect` was called, and the
sequence of states logged. -/
structure WaitResult where
  ret : Int
  sleptUs : Nat
  disconnected : Bool
  logged : List Nat
  deriving Repr, DecidableEq

def wait_loop (states : Nat → Int × Nat) :
    Nat → Nat → Option Nat → Nat → List Nat → WaitResult
  | 0, _, _, slept, logged => ⟨-1, slept, true, logged⟩
  | k + 1, i, last, slept, logged =>
    if (states i).1 < 0 then ⟨-1, slept, false, logged⟩
    else
      if (states i).2 = PSP_NET_APCTL_STATE_GOT_IP then
        ⟨0, slept, false,
         if last ≠ some (states i).2 then logged ++ [(states i).2] else logged⟩
      else
        wait_loop states k (i + 1) (some (states i).2) (slept + 300000)
          (if last ≠ some (states i).2 then logged ++ [(states i).2] else logged)

def wait_for_connection (timeout_seconds : Nat) (states : Nat → Int × Nat) :
    WaitResult :=
  wait_loop states (timeout_seconds * 4) 0 none 0 []

theorem wait_loop_timeout (states : Nat → Int × Nat)
    (h : ∀ i, 0 ≤ (states i).1 ∧ (states i).2 ≠ PSP_NET_APCTL_STATE_GOT_IP) :
    ∀ (k i : Nat) (last : Option Nat) (slept : Nat) (logged : List Nat),
      (wait_loop states k i last slept logged).ret = -1
      ∧ (wait_loop states k i last slept logged).disconnected = true
      ∧ (wait_loop states k i last slept logged).sleptUs
          = slept + k * 300000 := by
  intro k
  induction k with
  | zero => intro i last slept logged; exact ⟨rfl, rfl, by simp [wait_loop]⟩
  | succ k ih =>
    intro i last slept logged
    have h1 := (h i).1
    have h2 := (h i).2
    rw [wait_loop, if_neg (by omega), if_neg h2]
    refine ⟨(ih ..).1, (ih ..).2.1, ?_⟩
    rw [(ih ..).2.2]
    ring

theorem wait_loop_chain (states : Nat → Int × Nat) :
    ∀ (k i : Nat) (last : Option Nat) (slept : Nat) (logged : List Nat),
      (last = none → logged = []) →
      (∀ v, last = some v → logged.getLast? = some v) →
      List.Chain' Ne logged →
      List.Chain' Ne (wait_loop states k i last slept logged).logged := by
  intro k
  induction k with
  | zero => intro i last slept logged _ _ hc; exact hc
  | succ k ih =>
    intro i last slept logged hnone hlast hc
    have hstep : ∀ l : List Nat, l = (if last ≠ some (states i).2 then
          logged ++ [(states i).2] else logged) →
        List.Chain' Ne l ∧ l.getLast? = some (states i).2 := by
      intro l hl
      by_cases hne : last ≠ some (states i).2
      · rw [if_pos hne] at hl
        subst hl
        constructor
        · rw [List.chain'_append]
          refine ⟨hc, List.chain'_singleton _, ?_⟩
          intro x hx y hy
          cases last with
          | none => simp [hnone rfl] at hx
          | some v =>
            have := hlast v rfl
            rw [this] at hx
            simp at hx hy
            subst hx; subst hy
            intro hxy
            exact hne (by rw [hxy])
        · exact List.getLast?_concat _
      · rw [if_neg hne] at hl
        subst hl
        push_neg at hne
        exact ⟨hc, hlast _ hne⟩
    rw [wait_loop]
    by_cases hr : (states i).1 < 0
    · rw [if_pos hr]
      exact hc
    · rw [if_neg hr]
      by_cases hip : (states i).2 = PSP_NET_APCTL_STATE_GOT_IP
      · rw [if_pos hip]
        exact (hstep _ rfl).1
      · rw [if_neg hip]
        exact ih (i + 1) (some (states i).2) (slept + 300000) _
          (by intro h; cases h)
          (fun v hv => by
            cases hv
            exact (hstep _ rfl).2)
          (hstep _ rfl).1

/-- C7 (code slip, see `C7_wait_for_connection` conjunct 1): the function's
`timeout_seconds` parameter promises at most T seconds of waiting, and the
inline comment says "300ms intervals", but `timeout = timeout_seconds * 4`
iterations of 300 ms sleeps wait up to 1.2·T seconds — for the default
T = 30 used by `network_connect`, 36 s instead of 30 s.  The remaining
parts of the claim hold: fixed 300 ms polling, state-transition-only
logging, and disconnect + failure (-1) on expiry. -/
theorem C7_wait_for_connection (T : Nat) (states : Nat → Int × Nat)
    (h : ∀ i, 0 ≤ (states i).1 ∧ (states i).2 ≠ PSP_NET_APCTL_STATE_GOT_IP) :
    ((wait_for_connection 30 (fun _ => (0, 0))).sleptUs = 36000000
      ∧ ¬(36000000 ≤ 30 * 1000000))
    ∧ (wait_for_connection T states).ret = -1
    ∧ (wait_for_connection T states).disconnected = true
    ∧ (wait_for_connection T states).sleptUs = T * 4 * 300000
    ∧ List.Chain' Ne (wait_for_connection T states).logged := by
  have ht := wait_loop_timeout states h (T * 4) 0 none 0 []
  refine ⟨⟨rfl, by norm_num⟩, ht.1, ht.2.1, ?_, ?_⟩
  · show (wait_loop states (T * 4) 0 none 0 []).sleptUs = T * 4 * 300000
    rw [ht.2.2]
    omega
  · exact wait_loop_chain states (T * 4) 0 none 0 [] (fun _ => rfl)
      (fun v hv => by cases hv) (List.chain'_nil)

/-- Witness for `C7_wait_for_connection`: the link stays in state 1
(scanning) forever and every state query succeeds. -/
theorem C7_wait_for_connection_witness :
    (0 ≤ ((fun _ => ((0 : Int), 1)) (0 : Nat)).1
      ∧ ((fun _ => ((0 : Int), 1)) (0 : Nat)).2 ≠ PSP_NET_APCTL_STATE_GOT_IP)
    ∧ (wait_for_connection 2 (fun _ => ((0 : Int), 1))).ret = -1 := by
  refine ⟨⟨by norm_num, by norm_num [PSP_NET_APCTL_STATE_GOT_IP]⟩, ?_⟩
  exact (C7_wait_for_connection 2 (fun _ => ((0 : Int), 1))
    (fun i => ⟨by norm_num, by norm_num [PSP_NET_APCTL_STATE_GOT_IP]⟩)).2.1

/-! ### One tick of the net plugin worker loop
(net/src/main.c, `plugin_thread`, lines 359-593)

The loop body is modelled phase by phase, in source order; the per-tick
environment (`TickEnv`) carries the clock sample `now` (`get_time_us`, a
monotone microsecond clock), the WLAN switch, the results of
`network_init` / `network_connect` / `network_handle_discovery` /
`network_poll_message` / `game_detect_current` / `network_send_game_info`
and the icon helpers.  `TickOut` records the calls the tick made
(`network_disconnect`/`network_shutdown` and the three kinds of outgoing
messages).  Discovery's own config write-back is covered by
`network_handle_discovery` (claim C5) and not repeated here; the `cfg`
record is constant across a run.  `% 2^64` wrapping of the clock is
immaterial because `now` is monotone and the code subtracts earlier samples
from later ones. -/

def CONNECT_RETRY_US : Nat := 5000000

structure DetectedGame where
  game_id : String
  state : Nat
  has_icon : Bool
  deriving Repr, DecidableEq

structure LoopState where
  networkInitialized : Bool
  connected : Bool
  waitingForAck : Bool
  connectStartUs : Nat
  lastConnectAttempt : Nat
  lastHeartbeat : Nat
  lastGameCheck : Nat
  lastGameSend : Nat
  gameChanged : Bool
  running : Bool
  initAttempts : Nat
  connectAttempts : Nat
  currentGame : DetectedGame
  lastIconId : String
  deriving Repr, DecidableEq

structure TickEnv where
  now : Nat
  wlanOn : Bool
  netInitRes : Int
  connectRes : Int
  discoveryFound : Int
  pollMsg : Nat
  iconLoadOk : Bool
  iconSendOk : Bool
  detectOk : Bool
  detected : DetectedGame
  sendGameInfoRes : Int

structure TickOut where
  disconnectCalled : Bool
  shutdownCalled : Bool
  sentHeartbeat : Bool
  sentGameInfo : Bool
  sentGameInfoOk : Bool
  sentIcon : Bool
  deriving Repr, DecidableEq

def noOut : TickOut := ⟨false, false, false, false, false, false⟩

/-- Lines 362-403: (re)initialise the network when the WLAN switch is on and
attempt a connect; on `network_connect` result 0 (direct) or 1 (awaiting
discovery) the session waits for an ACK. -/
def tick_init_connect (env : TickEnv) (so : LoopState × TickOut) :
    LoopState × TickOut :=
  if so.1.networkInitialized = false ∧ env.wlanOn = true then
    if env.netInitRes = 0 then
      ({ so.1 with
          networkInitialized := true
          initAttempts := so.1.initAttempts + 1
          lastConnectAttempt := env.now
          connectAttempts := so.1.connectAttempts + 1
          connectStartUs :=
            if so.1.connectStartUs = 0 then env.now else so.1.connectStartUs
          connected := false
          waitingForAck :=
            if env.connectRes = 0 ∨ env.connectRes = 1 then true
            else so.1.waitingForAck }, so.2)
    else ({ so.1 with initAttempts := so.1.initAttempts + 1 }, so.2)
  else so

/-- Lines 405-410: WLAN switch off while initialised — tear the transport
down. -/
def tick_wlan_off (env : TickEnv) (so : LoopState × TickOut) :
    LoopState × TickOut :=
  if so.1.networkInitialized = true ∧ env.wlanOn = false then
    ({ so.1 with networkInitialized := false, connected := false },
     { so.2 with disconnectCalled := true, shutdownCalled := true })
  else so

/-- Lines 412-420: auto-discovery found the desktop. -/
def tick_discovery (cfg : PluginConfig) (env : TickEnv)
    (so : LoopState × TickOut) : LoopState × TickOut :=
  if so.1.networkInitialized = true ∧ cfg.auto_discovery ≠ 0 then
    if 0 < env.discoveryFound then
      ({ so.1 with
          connected := true
          waitingForAck := false
          connectStartUs := 0 }, so.2)
    else so
  else so

/-- Lines 422-450: poll for an ACK (1) or an icon request (2). -/
def tick_poll (cfg : PluginConfig) (env : TickEnv)
    (so : LoopState × TickOut) : LoopState × TickOut :=
  if so.1.networkInitialized = true then
    if env.pollMsg = 1 ∧ so.1.waitingForAck = true then
      ({ so.1 with
          connected := true
          waitingForAck := false
          connectStartUs := 0 }, so.2)
    else if env.pollMsg = 2 ∧ so.1.connected = true ∧ cfg.send_icons ≠ 0 then
      (so.1, if env.iconLoadOk = true then { so.2 with sentIcon := true }
          else so.2)
    else so
  else so

/-- Lines 452-476: connect retry every `CONNECT_RETRY_US` while not
connected (manual-address mode only). -/
def tick_retry (cfg : PluginConfig) (env : TickEnv)
    (so : LoopState × TickOut) : LoopState × TickOut :=
  if so.1.networkInitialized = true ∧ so.1.connected = false
      ∧ cfg.auto_discovery = 0 then
    if CONNECT_RETRY_US ≤ env.now - so.1.lastConnectAttempt then
      ({ so.1 with
          lastConnectAttempt := env.now
          connectAttempts := so.1.connectAttempts + 1
          connectStartUs :=
            if so.1.connectStartUs = 0 then env.now else so.1.connectStartUs
          connected := false
          waitingForAck :=
            if env.connectRes = 0 ∨ env.connectRes = 1 then true
            else so.1.waitingForAck }, so.2)
    else so
  else so

/-- Lines 478-493: connect timeout — never connected, a connect attempt was
made (`connectStartUs ≠ 0`) and `connect_timeout_s` elapsed: stop running
and tear the transport down. -/
def tick_timeout (cfg : PluginConfig) (env : TickEnv)
    (so : LoopState × TickOut) : LoopState × TickOut :=
  if so.1.connected = false ∧ so.1.connectStartUs ≠ 0
      ∧ 0 < cfg.connect_timeout_s then
    if cfg.connect_timeout_s * 1000000 ≤ env.now - so.1.connectStartUs then
      ({ so.1 with
          running := false
          networkInitialized := false
          connected := false },
       if so.1.networkInitialized = true then
         { so.2 with disconnectCalled := true, shutdownCalled := true }
       else so.2)
    else so
  else so

/-- Lines 495-511: periodic game detection (skipped when started from the
UI). -/
def tick_game_check (startedFromUi : Bool) (cfg : PluginConfig)
    (env : TickEnv) (so : LoopState × TickOut) : LoopState × TickOut :=
  if startedFromUi = false then
    if (if cfg.poll_interval_ms * 1000 < 500000 then 500000
        else cfg.poll_interval_ms * 1000) ≤ env.now - so.1.lastGameCheck then
      if env.detectOk = true then
        if env.detected.game_id ≠ so.1.currentGame.game_id
            ∨ env.detected.state ≠ so.1.currentGame.state then
          ({ so.1 with
              lastGameCheck := env.now
              currentGame := env.detected
              gameChanged := true }, so.2)
        else ({ so.1 with lastGameCheck := env.now }, so.2)
      else ({ so.1 with lastGameCheck := env.now }, so.2)
    else so
  else so

/-- Lines 515-527: heartbeat on its clamped interval (1 s .. 300 s).  The
surrounding `if (g_network_initialized)` guard lives in `tick_send`. -/
def tick_heartbeat (cfg : PluginConfig) (env : TickEnv)
    (so : LoopState × TickOut) : LoopState × TickOut :=
  if (if cfg.heartbeat_interval_ms * 1000 < 1000000 then 1000000
      else if 300000000 < cfg.heartbeat_interval_ms * 1000 then 300000000
      else cfg.heartbeat_interval_ms * 1000)
      ≤ env.now - so.1.lastHeartbeat then
    ({ so.1 with lastHeartbeat := env.now },
     { so.2 with sentHeartbeat := true })
  else so

/-- Lines 553-572: after a successful `GameInfo` send, push the icon when
the game changed, icons are enabled, the game has one and it was not already
pushed (`g_last_icon_id`). -/
def tick_icon_push (cfg : PluginConfig) (env : TickEnv)
    (so : LoopState × TickOut) : LoopState × TickOut :=
  if so.1.gameChanged = true ∧ cfg.send_icons ≠ 0
      ∧ so.1.currentGame.has_icon = true then
    if so.1.lastIconId ≠ so.1.currentGame.game_id then
      if env.iconLoadOk = true then
        if env.iconSendOk = true then
          ({ so.1 with lastIconId := so.1.currentGame.game_id },
           { so.2 with sentIcon := true })
        else (so.1, { so.2 with sentIcon := true })
      else so
    else so
  else so

/-- Lines 529-589: while connected, send `GameInfo` on a game change or on
the clamped resend interval; on success push the icon and, in send-once
mode, tear the transport down and stop the loop. -/
def tick_gameinfo (cfg : PluginConfig) (env : TickEnv)
    (so : LoopState × TickOut) : LoopState × TickOut :=
  if so.1.connected = true then
    if so.1.gameChanged = true
        ∨ (0 < cfg.game_update_interval_ms
            ∧ (if cfg.game_update_interval_ms * 1000 < 1000000 then 1000000
               else if 3600000000 < cfg.game_update_interval_ms * 1000 then
                 3600000000
               else cfg.game_update_interval_ms * 1000)
              ≤ env.now - so.1.lastGameSend) then
      if 0 ≤ env.sendGameInfoRes then
        if cfg.send_once ≠ 0 then
          ({ (tick_icon_push cfg env (so.1,
                { so.2 with sentGameInfo := true, sentGameInfoOk := true })).1
              with
              gameChanged := false
              lastGameSend := env.now
              networkInitialized := false
              connected := false
              running := false },
           { (tick_icon_push cfg env (so.1,
                { so.2 with sentGameInfo := true, sentGameInfoOk := true })).2
              with
              disconnectCalled := true
              shutdownCalled := true })
        else
          ({ (tick_icon_push cfg env (so.1,
                { so.2 with sentGameInfo := true, sentGameInfoOk := true })).1
              with
              gameChanged := false
              lastGameSend := env.now },
           (tick_icon_push cfg env (so.1,
              { so.2 with sentGameInfo := true, sentGameInfoOk := true })).2)
      else (so.1, { so.2 with sentGameInfo := true })
    else so
  else so

/-- Lines 513-590: heartbeat and `GameInfo`/icon sending, guarded by
`g_network_initialized`. -/
def tick_send (cfg : PluginConfig) (env : TickEnv)
    (so : LoopState × TickOut) : LoopState × TickOut :=
  if so.1.networkInitialized = true then
    tick_gameinfo cfg env (tick_heartbeat cfg env so)
  else so

/-- Lines 362-493 in sequence: init/connect, WLAN-off teardown, discovery,
message poll, connect retry, connect timeout. -/
def tick_connect_phase (cfg : PluginConfig) (env : TickEnv) (s : LoopState) :
    LoopState × TickOut :=
  tick_timeout cfg env (tick_retry cfg env (tick_poll cfg env
    (tick_discovery cfg env (tick_wlan_off env (tick_init_connect env
      (s, noOut))))))

/-- One iteration of the `while (g_running)` loop; the `break` after the
connect timeout (line 491) skips the rest of the iteration. -/
def plugin_tick (startedFromUi : Bool) (cfg : PluginConfig) (env : TickEnv)
    (s : LoopState) : LoopState × TickOut :=
  if (tick_connect_phase cfg env s).1.running = false then
    tick_connect_phase cfg env s
  else
    tick_send cfg env
      (tick_game_check startedFromUi cfg env (tick_connect_phase cfg env s))

/-- A run of the worker loop: one tick per environment entry while
`g_running` holds; once `running` is false the loop body never executes
again, so no further `TickOut` is produced. -/
def plugin_run (startedFromUi : Bool) (cfg : PluginConfig)
    (envs : List TickEnv) (s : LoopState) : LoopState × List TickOut :=
  match envs with
  | [] => (s, [])
  | e :: rest =>
    if s.running = true then
      ((plugin_run startedFromUi cfg rest
          (plugin_tick startedFromUi cfg e s).1).1,
       (plugin_tick startedFromUi cfg e s).2
         :: (plugin_run startedFromUi cfg rest
              (plugin_tick startedFromUi cfg e s).1).2)
    else (s, [])

/-! #### Phase lemmas for the connect-timeout and ACK behaviour -/

theorem tick_init_connect_pres (env : TickEnv) (so : LoopState × TickOut)
    (hc : so.1.connected = false) (hs : so.1.connectStartUs ≠ 0) :
    (tick_init_connect env so).1.running = so.1.running
    ∧ (tick_init_connect env so).1.connected = false
    ∧ (tick_init_connect env so).1.connectStartUs = so.1.connectStartUs
    ∧ (tick_init_connect env so).2 = so.2 := by
  unfold tick_init_connect
  by_cases h1 : so.1.networkInitialized = false ∧ env.wlanOn = true
  · rw [if_pos h1]
    by_cases h2 : env.netInitRes = 0
    · rw [if_pos h2]
      exact ⟨rfl, rfl, by simp [hs], rfl⟩
    · rw [if_neg h2]
      exact ⟨rfl, hc, rfl, rfl⟩
  · rw [if_neg h1]
    exact ⟨rfl, hc, rfl, rfl⟩

theorem tick_init_connect_skip (env : TickEnv) (so : LoopState × TickOut)
    (h : so.1.networkInitialized = true) :
    tick_init_connect env so = so := by
  unfold tick_init_connect
  rw [if_neg (by simp [h])]

theorem tick_wlan_off_pres (env : TickEnv) (so : LoopState × TickOut)
    (hc : so.1.connected = false) :
    (tick_wlan_off env so).1.running = so.1.running
    ∧ (tick_wlan_off env so).1.connected = false
    ∧ (tick_wlan_off env so).1.connectStartUs = so.1.connectStartUs := by
  unfold tick_wlan_off
  by_cases h1 : so.1.networkInitialized = true ∧ env.wlanOn = false
  · rw [if_pos h1]
    exact ⟨rfl, rfl, rfl⟩
  · rw [if_neg h1]
    exact ⟨rfl, hc, rfl⟩

theorem tick_wlan_off_skip (env : TickEnv) (so : LoopState × TickOut)
    (h : env.wlanOn = true) :
    tick_wlan_off env so = so := by
  unfold tick_wlan_off
  rw [if_neg (by simp [h])]

theorem tick_discovery_skip (cfg : PluginConfig) (env : TickEnv)
    (so : LoopState × TickOut) (h : env.discoveryFound ≤ 0) :
    tick_discovery cfg env so = so := by
  unfold tick_discovery
  split_ifs with h1 h2
  · exact absurd h2 (by omega)
  · rfl
  · rfl

theorem tick_poll_skip (cfg : PluginConfig) (env : TickEnv)
    (so : LoopState × TickOut) (hp : env.pollMsg ≠ 1)
    (hc : so.1.connected = false) :
    tick_poll cfg env so = so := by
  unfold tick_poll
  by_cases h1 : so.1.networkInitialized = true
  · rw [if_pos h1, if_neg (by simp [hp]), if_neg (by simp [hc])]
  · rw [if_neg h1]

theorem tick_retry_pres (cfg : PluginConfig) (env : TickEnv)
    (so : LoopState × TickOut)
    (hc : so.1.connected = false) (hs : so.1.connectStartUs ≠ 0) :
    (tick_retry cfg env so).1.running = so.1.running
    ∧ (tick_retry cfg env so).1.connected = false
    ∧ (tick_retry cfg env so).1.connectStartUs = so.1.connectStartUs
    ∧ (tick_retry cfg env so).1.networkInitialized = so.1.networkInitialized
    ∧ (tick_retry cfg env so).2 = so.2 := by
  unfold tick_retry
  by_cases h1 : so.1.networkInitialized = true ∧ so.1.connected = false
      ∧ cfg.auto_discovery = 0
  · rw [if_pos h1]
    by_cases h2 : CONNECT_RETRY_US ≤ env.now - so.1.lastConnectAttempt
    · rw [if_pos h2]
      exact ⟨rfl, rfl, by simp [hs], rfl, rfl⟩
    · rw [if_neg h2]
      exact ⟨rfl, hc, rfl, rfl, rfl⟩
  · rw [if_neg h1]
    exact ⟨rfl, hc, rfl, rfl, rfl⟩

theorem tick_timeout_pres (cfg : PluginConfig) (env : TickEnv)
    (so : LoopState × TickOut) (hT : 0 < cfg.connect_timeout_s)
    (hnow : env.now < so.1.connectStartUs + cfg.connect_timeout_s * 1000000) :
    tick_timeout cfg env so = so := by
  unfold tick_timeout
  by_cases h1 : so.1.connected = false ∧ so.1.connectStartUs ≠ 0
      ∧ 0 < cfg.connect_timeout_s
  · rw [if_pos h1, if_neg (by omega)]
  · rw [if_neg h1]

theorem tick_timeout_fire (cfg : PluginConfig) (env : TickEnv)
    (so : LoopState × TickOut)
    (hc : so.1.connected = false) (hs : so.1.connectStartUs ≠ 0)
    (hT : 0 < cfg.connect_timeout_s)
    (hnow : so.1.connectStartUs + cfg.connect_timeout_s * 1000000 ≤ env.now) :
    (tick_timeout cfg env so).1.running = false
    ∧ (tick_timeout cfg env so).1.networkInitialized = false
    ∧ (tick_timeout cfg env so).1.connected = false
    ∧ (so.2.disconnectCalled = true ∨ so.1.networkInitialized = true →
        (tick_timeout cfg env so).2.disconnectCalled = true)
    ∧ (so.2.shutdownCalled = true ∨ so.1.networkInitialized = true →
        (tick_timeout cfg env so).2.shutdownCalled = true) := by
  unfold tick_timeout
  rw [if_pos ⟨hc, hs, hT⟩, if_pos (by omega)]
  refine ⟨rfl, rfl, rfl, ?_, ?_⟩ <;>
    · intro h
      by_cases hi : so.1.networkInitialized = true
      · rw [if_pos hi]
      · rw [if_neg hi]
        rcases h with h | h
        · exact h
        · exact absurd h hi

theorem tick_game_check_pres (startedFromUi : Bool) (cfg : PluginConfig)
    (env : TickEnv) (so : LoopState × TickOut) :
    (tick_game_check startedFromUi cfg env so).1.running = so.1.running
    ∧ (tick_game_check startedFromUi cfg env so).1.connected = so.1.connected
    ∧ (tick_game_check startedFromUi cfg env so).1.connectStartUs
        = so.1.connectStartUs
    ∧ (tick_game_check startedFromUi cfg env so).2 = so.2 := by
  unfold tick_game_check
  by_cases h1 : startedFromUi = false
  case neg => rw [if_neg h1]; exact ⟨rfl, rfl, rfl, rfl⟩
  rw [if_pos h1]
  by_cases h2 : (if cfg.poll_interval_ms * 1000 < 500000 then 500000
      else cfg.poll_interval_ms * 1000) ≤ env.now - so.1.lastGameCheck
  case neg => rw [if_neg h2]; exact ⟨rfl, rfl, rfl, rfl⟩
  rw [if_pos h2]
  by_cases h3 : env.detectOk = true
  case neg => rw [if_neg h3]; exact ⟨rfl, rfl, rfl, rfl⟩
  rw [if_pos h3]
  by_cases h4 : env.detected.game_id ≠ so.1.currentGame.game_id
      ∨ env.detected.state ≠ so.1.currentGame.state
  · rw [if_pos h4]; exact ⟨rfl, rfl, rfl, rfl⟩
  · rw [if_neg h4]; exact ⟨rfl, rfl, rfl, rfl⟩

theorem tick_heartbeat_pres (cfg : PluginConfig) (env : TickEnv)
    (so : LoopState × TickOut) :
    (tick_heartbeat cfg env so).1.running = so.1.running
    ∧ (tick_heartbeat cfg env so).1.connected = so.1.connected
    ∧ (tick_heartbeat cfg env so).1.connectStartUs = so.1.connectStartUs
    ∧ (tick_heartbeat cfg env so).1.gameChanged = so.1.gameChanged
    ∧ (tick_heartbeat cfg env so).1.networkInitialized
        = so.1.networkInitialized := by
  unfold tick_heartbeat
  by_cases h1 : (if cfg.heartbeat_interval_ms * 1000 < 1000000 then 1000000
      else if 300000000 < cfg.heartbeat_interval_ms * 1000 then 300000000
      else cfg.heartbeat_interval_ms * 1000) ≤ env.now - so.1.lastHeartbeat
  · rw [if_pos h1]; exact ⟨rfl, rfl, rfl, rfl, rfl⟩
  · rw [if_neg h1]; exact ⟨rfl, rfl, rfl, rfl, rfl⟩

theorem tick_icon_push_pres (cfg : PluginConfig) (env : TickEnv)
    (so : LoopState × TickOut) :
    (tick_icon_push cfg env so).1.running = so.1.running
    ∧ (tick_icon_push cfg env so).1.connected = so.1.connected
    ∧ (tick_icon_push cfg env so).1.connectStartUs = so.1.connectStartUs := by
  unfold tick_icon_push
  by_cases h1 : so.1.gameChanged = true ∧ cfg.send_icons ≠ 0
      ∧ so.1.currentGame.has_icon = true
  case neg => rw [if_neg h1]; exact ⟨rfl, rfl, rfl⟩
  rw [if_pos h1]
  by_cases h2 : so.1.lastIconId ≠ so.1.currentGame.game_id
  case neg => rw [if_neg h2]; exact ⟨rfl, rfl, rfl⟩
  rw [if_pos h2]
  by_cases h3 : env.iconLoadOk = true
  case neg => rw [if_neg h3]; exact ⟨rfl, rfl, rfl⟩
  rw [if_pos h3]
  by_cases h4 : env.iconSendOk = true
  · rw [if_pos h4]; exact ⟨rfl, rfl, rfl⟩
  · rw [if_neg h4]; exact ⟨rfl, rfl, rfl⟩

theorem tick_gameinfo_pres (cfg : PluginConfig) (env : TickEnv)
    (so : LoopState × TickOut)
    (h : so.1.connected = false ∨ cfg.send_once = 0) :
    (tick_gameinfo cfg env so).1.running = so.1.running
    ∧ (tick_gameinfo cfg env so).1.connected = so.1.connected
    ∧ (tick_gameinfo cfg env so).1.connectStartUs = so.1.connectStartUs := by
  unfold tick_gameinfo
  by_cases h1 : so.1.connected = true
  case neg => rw [if_neg h1]; exact ⟨rfl, rfl, rfl⟩
  rw [if_pos h1]
  rcases h with h | h
  · exact absurd h1 (by simp [h])
  by_cases h2 : so.1.gameChanged = true
      ∨ (0 < cfg.game_update_interval_ms
          ∧ (if cfg.game_update_interval_ms * 1000 < 1000000 then 1000000
             else if 3600000000 < cfg.game_update_interval_ms * 1000 then
               3600000000
             else cfg.game_update_interval_ms * 1000)
            ≤ env.now - so.1.lastGameSend)
  case neg => rw [if_neg h2]; exact ⟨rfl, rfl, rfl⟩
  rw [if_pos h2]
  by_cases h3 : (0 : Int) ≤ env.sendGameInfoRes
  case neg => rw [if_neg h3]; exact ⟨rfl, rfl, rfl⟩
  rw [if_pos h3, if_neg (by simp [h])]
  have hi := tick_icon_push_pres cfg env (so.1,
    { so.2 with sentGameInfo := true, sentGameInfoOk := true })
  exact ⟨hi.1, hi.2.1, hi.2.2⟩

theorem tick_send_pres (cfg : PluginConfig) (env : TickEnv)
    (so : LoopState × TickOut)
    (h : so.1.connected = false ∨ cfg.send_once = 0) :
    (tick_send cfg env so).1.running = so.1.running
    ∧ (tick_send cfg env so).1.connected = so.1.connected
    ∧ (tick_send cfg env so).1.connectStartUs = so.1.connectStartUs := by
  unfold tick_send
  by_cases h1 : so.1.networkInitialized = true
  case neg => rw [if_neg h1]; exact ⟨rfl, rfl, rfl⟩
  rw [if_pos h1]
  have hb := tick_heartbeat_pres cfg env so
  have hg := tick_gameinfo_pres cfg env (tick_heartbeat cfg env so)
    (by rcases h with h | h
        · exact Or.inl (by rw [hb.2.1, h])
        · exact Or.inr h)
  exact ⟨by rw [hg.1, hb.1], by rw [hg.2.1, hb.2.1],
    by rw [hg.2.2, hb.2.2.1]⟩

theorem tick_connect_phase_quiet (cfg : PluginConfig) (env : TickEnv)
    (s : LoopState)
    (hc : s.connected = false) (hs : s.connectStartUs ≠ 0)
    (hq1 : env.pollMsg ≠ 1) (hq2 : env.discoveryFound ≤ 0)
    (hT : 0 < cfg.connect_timeout_s)
    (hnow : env.now < s.connectStartUs + cfg.connect_timeout_s * 1000000) :
    (tick_connect_phase cfg env s).1.running = s.running
    ∧ (tick_connect_phase cfg env s).1.connected = false
    ∧ (tick_connect_phase cfg env s).1.connectStartUs = s.connectStartUs := by
  unfold tick_connect_phase
  have hA := tick_init_connect_pres env (s, noOut) hc hs
  have hB := tick_wlan_off_pres env (tick_init_connect env (s, noOut)) hA.2.1
  have hsB : (tick_wlan_off env
      (tick_init_connect env (s, noOut))).1.connectStartUs ≠ 0 := by
    rw [hB.2.2, hA.2.2.1]; exact hs
  rw [tick_discovery_skip cfg env _ hq2, tick_poll_skip cfg env _ hq1 hB.2.1]
  have hE := tick_retry_pres cfg env
    (tick_wlan_off env (tick_init_connect env (s, noOut))) hB.2.1 hsB
  have hnowE : env.now < (tick_retry cfg env (tick_wlan_off env
      (tick_init_connect env (s, noOut)))).1.connectStartUs
        + cfg.connect_timeout_s * 1000000 := by
    rw [hE.2.2.1, hB.2.2, hA.2.2.1]; exact hnow
  rw [tick_timeout_pres cfg env _ hT hnowE]
  refine ⟨?_, hE.2.1, ?_⟩
  · rw [hE.1, hB.1, hA.1]
  · rw [hE.2.2.1, hB.2.2, hA.2.2.1]

theorem plugin_tick_quiet_pres (su : Bool) (cfg : PluginConfig)
    (env : TickEnv) (s : LoopState)
    (hrun : s.running = true) (hc : s.connected = false)
    (hs : s.connectStartUs ≠ 0)
    (hq1 : env.pollMsg ≠ 1) (hq2 : env.discoveryFound ≤ 0)
    (hT : 0 < cfg.connect_timeout_s)
    (hnow : env.now < s.connectStartUs + cfg.connect_timeout_s * 1000000) :
    (plugin_tick su cfg env s).1.running = true
    ∧ (plugin_tick su cfg env s).1.connected = false
    ∧ (plugin_tick su cfg env s).1.connectStartUs = s.connectStartUs := by
  have hF := tick_connect_phase_quiet cfg env s hc hs hq1 hq2 hT hnow
  unfold plugin_tick
  rw [if_neg (by rw [hF.1, hrun]; simp)]
  have hG := tick_game_check_pres su cfg env (tick_connect_phase cfg env s)
  have hH := tick_send_pres cfg env
    (tick_game_check su cfg env (tick_connect_phase cfg env s))
    (Or.inl (by rw [hG.2.1, hF.2.1]))
  exact ⟨by rw [hH.1, hG.1, hF.1, hrun], by rw [hH.2.1, hG.2.1, hF.2.1],
    by rw [hH.2.2, hG.2.2.1, hF.2.2]⟩

theorem plugin_tick_timeout_fire (su : Bool) (cfg : PluginConfig)
    (env : TickEnv) (s : LoopState)
    (hinit : s.networkInitialized = true)
    (hc : s.connected = false) (hs : s.connectStartUs ≠ 0)
    (hq1 : env.pollMsg ≠ 1) (hq2 : env.discoveryFound ≤ 0)
    (hT : 0 < cfg.connect_timeout_s)
    (hnow : s.connectStartUs + cfg.connect_timeout_s * 1000000 ≤ env.now) :
    (plugin_tick su cfg env s).1.running = false
    ∧ (plugin_tick su cfg env s).1.networkInitialized = false
    ∧ (plugin_tick su cfg env s).1.connected = false
    ∧ (plugin_tick su cfg env s).2.disconnectCalled = true
    ∧ (plugin_tick su cfg env s).2.shutdownCalled = true := by
  unfold plugin_tick tick_connect_phase
  rw [tick_init_connect_skip env (s, noOut) hinit]
  by_cases hw : env.wlanOn = true
  · rw [tick_wlan_off_skip env (s, noOut) hw,
      tick_discovery_skip cfg env _ hq2, tick_poll_skip cfg env _ hq1 hc]
    have hE := tick_retry_pres cfg env (s, noOut) hc hs
    have hFf := tick_timeout_fire cfg env (tick_retry cfg env (s, noOut))
      hE.2.1 (by rw [hE.2.2.1]; exact hs) hT (by rw [hE.2.2.1]; exact hnow)
    have hev1 := hFf.2.2.2.1 (Or.inr (by rw [hE.2.2.2.1]; exact hinit))
    have hev2 := hFf.2.2.2.2 (Or.inr (by rw [hE.2.2.2.1]; exact hinit))
    rw [if_pos hFf.1]
    exact ⟨hFf.1, hFf.2.1, hFf.2.2.1, hev1, hev2⟩
  · have hwf : env.wlanOn = false := by
      cases h : env.wlanOn
      · rfl
      · exact absurd h hw
    have hBeq : tick_wlan_off env (s, noOut)
        = ({ s with networkInitialized := false, connected := false },
           { noOut with disconnectCalled := true, shutdownCalled := true }) := by
      unfold tick_wlan_off
      rw [if_pos ⟨hinit, hwf⟩]
    rw [hBeq, tick_discovery_skip cfg env _ hq2,
      tick_poll_skip cfg env _ hq1 rfl]
    have hE := tick_retry_pres cfg env
      ({ s with networkInitialized := false, connected := false },
       { noOut with disconnectCalled := true, shutdownCalled := true })
      rfl (by exact hs)
    have hFf := tick_timeout_fire cfg env
      (tick_retry cfg env
        ({ s with networkInitialized := false, connected := false },
         { noOut with disconnectCalled := true, shutdownCalled := true }))
      hE.2.1 (by rw [hE.2.2.1]; exact hs) hT (by rw [hE.2.2.1]; exact hnow)
    have hev1 := hFf.2.2.2.1 (Or.inl (by rw [hE.2.2.2.2]))
    have hev2 := hFf.2.2.2.2 (Or.inl (by rw [hE.2.2.2.2]))
    rw [if_pos hFf.1]
    exact ⟨hFf.1, hFf.2.1, hFf.2.2.1, hev1, hev2⟩

theorem plugin_tick_ack (su : Bool) (cfg : PluginConfig)
    (env : TickEnv) (s : LoopState)
    (hrun : s.running = true) (hinit : s.networkInitialized = true)
    (hc : s.connected = false) (hwait : s.waitingForAck = true)
    (hw : env.wlanOn = true) (hp : env.pollMsg = 1)
    (hq2 : env.discoveryFound ≤ 0) (hso : cfg.send_once = 0) :
    (plugin_tick su cfg env s).1.connected = true
    ∧ (plugin_tick su cfg env s).1.connectStartUs = 0
    ∧ (plugin_tick su cfg env s).1.running = true := by
  unfold plugin_tick tick_connect_phase
  rw [tick_init_connect_skip env (s, noOut) hinit,
    tick_wlan_off_skip env (s, noOut) hw, tick_discovery_skip cfg env _ hq2]
  have hDeq : tick_poll cfg env (s, noOut)
      = ({ s with
            connected := true
            waitingForAck := false
            connectStartUs := 0 }, noOut) := by
    unfold tick_poll
    rw [if_pos hinit, if_pos ⟨hp, hwait⟩]
  rw [hDeq]
  have hEeq : tick_retry cfg env
      ({ s with
          connected := true
          waitingForAck := false
          connectStartUs := 0 }, noOut)
      = ({ s with
            connected := true
            waitingForAck := false
            connectStartUs := 0 }, noOut) := by
    unfold tick_retry
    rw [if_neg (by simp)]
  rw [hEeq]
  have hFeq : tick_timeout cfg env
      ({ s with
          connected := true
          waitingForAck := false
          connectStartUs := 0 }, noOut)
      = ({ s with
            connected := true
            waitingForAck := false
            connectStartUs := 0 }, noOut) := by
    unfold tick_timeout
    rw [if_neg (by simp)]
  rw [hFeq, if_neg (by simp [hrun])]
  have hG := tick_game_check_pres su cfg env
    ({ s with
        connected := true
        waitingForAck := false
        connectStartUs := 0 }, noOut)
  have hH := tick_send_pres cfg env
    (tick_game_check su cfg env
      ({ s with
          connected := true
          waitingForAck := false
          connectStartUs := 0 }, noOut)) (Or.inr hso)
  refine ⟨?_, ?_, ?_⟩
  · rw [hH.2.1, hG.2.1]
  · rw [hH.2.2, hG.2.2.1]
  · rw [hH.1, hG.1]
    exact hrun

/-! #### Output bookkeeping: no phase before the send section reports a
successful `GameInfo` send -/

theorem tick_init_connect_out (env : TickEnv) (so : LoopState × TickOut) :
    (tick_init_connect env so).2 = so.2 := by
  unfold tick_init_connect
  by_cases h1 : so.1.networkInitialized = false ∧ env.wlanOn = true
  · rw [if_pos h1]
    by_cases h2 : env.netInitRes = 0
    · rw [if_pos h2]
    · rw [if_neg h2]
  · rw [if_neg h1]

theorem tick_wlan_off_out (env : TickEnv) (so : LoopState × TickOut) :
    (tick_wlan_off env so).2.sentGameInfoOk = so.2.sentGameInfoOk := by
  unfold tick_wlan_off
  by_cases h1 : so.1.networkInitialized = true ∧ env.wlanOn = false
  · rw [if_pos h1]
  · rw [if_neg h1]

theorem tick_discovery_out (cfg : PluginConfig) (env : TickEnv)
    (so : LoopState × TickOut) : (tick_discovery cfg env so).2 = so.2 := by
  unfold tick_discovery
  by_cases h1 : so.1.networkInitialized = true ∧ cfg.auto_discovery ≠ 0
  · rw [if_pos h1]
    by_cases h2 : 0 < env.discoveryFound
    · rw [if_pos h2]
    · rw [if_neg h2]
  · rw [if_neg h1]

theorem tick_poll_out (cfg : PluginConfig) (env : TickEnv)
    (so : LoopState × TickOut) :
    (tick_poll cfg env so).2.sentGameInfoOk = so.2.sentGameInfoOk := by
  unfold tick_poll
  by_cases h1 : so.1.networkInitialized = true
  case neg => rw [if_neg h1]
  rw [if_pos h1]
  by_cases h2 : env.pollMsg = 1 ∧ so.1.waitingForAck = true
  · rw [if_pos h2]
  · rw [if_neg h2]
    by_cases h3 : env.pollMsg = 2 ∧ so.1.connected = true ∧ cfg.send_icons ≠ 0
    · rw [if_pos h3]
      by_cases h4 : env.iconLoadOk = true
      · rw [if_pos h4]
      · rw [if_neg h4]
    · rw [if_neg h3]

theorem tick_retry_out (cfg : PluginConfig) (env : TickEnv)
    (so : LoopState × TickOut) : (tick_retry cfg env so).2 = so.2 := by
  unfold tick_retry
  by_cases h1 : so.1.networkInitialized = true ∧ so.1.connected = false
      ∧ cfg.auto_discovery = 0
  · rw [if_pos h1]
    by_cases h2 : CONNECT_RETRY_US ≤ env.now - so.1.lastConnectAttempt
    · rw [if_pos h2]
    · rw [if_neg h2]
  · rw [if_neg h1]

theorem tick_timeout_out (cfg : PluginConfig) (env : TickEnv)
    (so : LoopState × TickOut) :
    (tick_timeout cfg env so).2.sentGameInfoOk = so.2.sentGameInfoOk := by
  unfold tick_timeout
  by_cases h1 : so.1.connected = false ∧ so.1.connectStartUs ≠ 0
      ∧ 0 < cfg.connect_timeout_s
  case neg => rw [if_neg h1]
  rw [if_pos h1]
  by_cases h2 : cfg.connect_timeout_s * 1000000 ≤ env.now - so.1.connectStartUs
  case neg => rw [if_neg h2]
  rw [if_pos h2]
  by_cases h3 : so.1.networkInitialized = true
  · rw [if_pos h3]
  · rw [if_neg h3]

theorem tick_heartbeat_out (cfg : PluginConfig) (env : TickEnv)
    (so : LoopState × TickOut) :
    (tick_heartbeat cfg env so).2.sentGameInfoOk = so.2.sentGameInfoOk := by
  unfold tick_heartbeat
  by_cases h1 : (if cfg.heartbeat_interval_ms * 1000 < 1000000 then 1000000
      else if 300000000 < cfg.heartbeat_interval_ms * 1000 then 300000000
      else cfg.heartbeat_interval_ms * 1000) ≤ env.now - so.1.lastHeartbeat
  · rw [if_pos h1]
  · rw [if_neg h1]

theorem tick_connect_phase_out (cfg : PluginConfig) (env : TickEnv)
    (s : LoopState) :
    (tick_connect_phase cfg env s).2.sentGameInfoOk = false := by
  unfold tick_connect_phase
  rw [tick_timeout_out, tick_retry_out, tick_poll_out, tick_discovery_out,
    tick_wlan_off_out, tick_init_connect_out]
  rfl

/-! #### Send-once teardown -/

theorem tick_gameinfo_send_once (cfg : PluginConfig) (env : TickEnv)
    (so : LoopState × TickOut)
    (hok : (tick_gameinfo cfg env so).2.sentGameInfoOk = true)
    (hpre : so.2.sentGameInfoOk = false)
    (honce : cfg.send_once ≠ 0) :
    (tick_gameinfo cfg env so).1.running = false
    ∧ (tick_gameinfo cfg env so).1.networkInitialized = false
    ∧ (tick_gameinfo cfg env so).1.connected = false
    ∧ (tick_gameinfo cfg env so).2.disconnectCalled = true
    ∧ (tick_gameinfo cfg env so).2.shutdownCalled = true := by
  unfold tick_gameinfo at hok ⊢
  by_cases h1 : so.1.connected = true
  case neg =>
    rw [if_neg h1] at hok
    rw [hpre] at hok
    exact absurd hok (by simp)
  rw [if_pos h1] at hok ⊢
  by_cases h2 : so.1.gameChanged = true
      ∨ (0 < cfg.game_update_interval_ms
          ∧ (if cfg.game_update_interval_ms * 1000 < 1000000 then 1000000
             else if 3600000000 < cfg.game_update_interval_ms * 1000 then
               3600000000
             else cfg.game_update_interval_ms * 1000)
            ≤ env.now - so.1.lastGameSend)
  case neg =>
    rw [if_neg h2] at hok
    rw [hpre] at hok
    exact absurd hok (by simp)
  rw [if_pos h2] at hok ⊢
  by_cases h3 : (0 : Int) ≤ env.sendGameInfoRes
  case neg =>
    rw [if_neg h3] at hok
    simp only at hok
    rw [hpre] at hok
    exact absurd hok (by simp)
  rw [if_pos h3] at hok ⊢
  rw [if_pos honce]
  exact ⟨rfl, rfl, rfl, rfl, rfl⟩

theorem tick_send_send_once (cfg : PluginConfig) (env : TickEnv)
    (so : LoopState × TickOut)
    (hok : (tick_send cfg env so).2.sentGameInfoOk = true)
    (hpre : so.2.sentGameInfoOk = false)
    (honce : cfg.send_once ≠ 0) :
    (tick_send cfg env so).1.running = false
    ∧ (tick_send cfg env so).1.networkInitialized = false
    ∧ (tick_send cfg env so).1.connected = false
    ∧ (tick_send cfg env so).2.disconnectCalled = true
    ∧ (tick_send cfg env so).2.shutdownCalled = true := by
  unfold tick_send at hok ⊢
  by_cases h1 : so.1.networkInitialized = true
  case neg =>
    rw [if_neg h1] at hok
    rw [hpre] at hok
    exact absurd hok (by simp)
  rw [if_pos h1] at hok ⊢
  exact tick_gameinfo_send_once cfg env (tick_heartbeat cfg env so) hok
    (by rw [tick_heartbeat_out]; exact hpre) honce

theorem plugin_tick_send_once (su : Bool) (cfg : PluginConfig)
    (env : TickEnv) (s : LoopState)
    (hok : (plugin_tick su cfg env s).2.sentGameInfoOk = true)
    (honce : cfg.send_once ≠ 0) :
    (plugin_tick su cfg env s).1.running = false
    ∧ (plugin_tick su cfg env s).1.networkInitialized = false
    ∧ (plugin_tick su cfg env s).1.connected = false
    ∧ (plugin_tick su cfg env s).2.disconnectCalled = true
    ∧ (plugin_tick su cfg env s).2.shutdownCalled = true := by
  unfold plugin_tick at hok ⊢
  by_cases hf : (tick_connect_phase cfg env s).1.running = false
  · rw [if_pos hf] at hok
    rw [tick_connect_phase_out] at hok
    exact absurd hok (by simp)
  · rw [if_neg hf] at hok ⊢
    exact tick_send_send_once cfg env
      (tick_game_check su cfg env (tick_connect_phase cfg env s)) hok
      (by rw [(tick_game_check_pres su cfg env
          (tick_connect_phase cfg env s)).2.2.2]
          exact tick_connect_phase_out cfg env s) honce

theorem plugin_run_stopped (su : Bool) (cfg : PluginConfig)
    (envs : List TickEnv) (s : LoopState) (h : s.running = false) :
    plugin_run su cfg envs s = (s, []) := by
  cases envs with
  | nil => rfl
  | cons e rest =>
    unfold plugin_run
    rw [if_neg (by simp [h])]

theorem plugin_run_quiet_pres (su : Bool) (cfg : PluginConfig) :
    ∀ (envs : List TickEnv) (s : LoopState) (c : Nat),
      s.running = true → s.connected = false → s.connectStartUs = c →
      c ≠ 0 → 0 < cfg.connect_timeout_s →
      (∀ e ∈ envs, e.pollMsg ≠ 1 ∧ e.discoveryFound ≤ 0
        ∧ e.now < c + cfg.connect_timeout_s * 1000000) →
      (plugin_run su cfg envs s).1.running = true
      ∧ (plugin_run su cfg envs s).1.connected = false
      ∧ (plugin_run su cfg envs s).1.connectStartUs = c := by
  intro envs
  induction envs with
  | nil =>
    intro s c h1 h2 h3 _ _ _
    exact ⟨h1, h2, h3⟩
  | cons e rest ih =>
    intro s c h1 h2 h3 h4 h5 hq
    have he := hq e (by simp)
    have hstep := plugin_tick_quiet_pres su cfg e s h1 h2
      (by rw [h3]; exact h4) he.1 he.2.1 h5 (by rw [h3]; exact he.2.2)
    unfold plugin_run
    rw [if_pos h1]
    exact ih (plugin_tick su cfg e s).1 c hstep.1 hstep.2.1
      (by rw [hstep.2.2]; exact h3) h4 h5
      (fun e' he' => hq e' (List.mem_cons_of_mem _ he'))

/-- C4: with a positive connect timeout `T` and a connect attempt recorded
(`connectStartUs = c ≠ 0`) but no ACK and no discovery success: (1) a tick
whose clock is still below `c + T` seconds keeps the machine running with
the timeout clock untouched (so termination happens no earlier than `T`
seconds after the first connect attempt, and — the loop ticking every
100 ms — no later than `T` plus one tick); (2) the first tick at or past
`c + T` seconds stops the loop and tears the transport down (disconnect and
shutdown); (3) the same preservation holds over any quiet run; (4) if an
ACK arrives instead, the machine becomes connected and the timeout clock is
reset to 0. -/
theorem C4_connect_timeout (su : Bool) (cfg : PluginConfig) (env : TickEnv)
    (s : LoopState)
    (hrun : s.running = true) (hc : s.connected = false)
    (hs : s.connectStartUs ≠ 0)
    (hq1 : env.pollMsg ≠ 1) (hq2 : env.discoveryFound ≤ 0)
    (hT : 0 < cfg.connect_timeout_s) :
    (env.now < s.connectStartUs + cfg.connect_timeout_s * 1000000 →
      (plugin_tick su cfg env s).1.running = true
      ∧ (plugin_tick su cfg env s).1.connected = false
      ∧ (plugin_tick su cfg env s).1.connectStartUs = s.connectStartUs)
    ∧ (s.networkInitialized = true →
        s.connectStartUs + cfg.connect_timeout_s * 1000000 ≤ env.now →
        (plugin_tick su cfg env s).1.running = false
        ∧ (plugin_tick su cfg env s).1.networkInitialized = false
        ∧ (plugin_tick su cfg env s).1.connected = false
        ∧ (plugin_tick su cfg env s).2.disconnectCalled = true
        ∧ (plugin_tick su cfg env s).2.shutdownCalled = true)
    ∧ (∀ envs : List TickEnv,
        (∀ e ∈ envs, e.pollMsg ≠ 1 ∧ e.discoveryFound ≤ 0
          ∧ e.now < s.connectStartUs + cfg.connect_timeout_s * 1000000) →
        (plugin_run su cfg envs s).1.running = true
        ∧ (plugin_run su cfg envs s).1.connected = false
        ∧ (plugin_run su cfg envs s).1.connectStartUs = s.connectStartUs)
    ∧ (∀ env2 : TickEnv, env2.wlanOn = true → env2.pollMsg = 1 →
        env2.discoveryFound ≤ 0 → s.networkInitialized = true →
        s.waitingForAck = true → cfg.send_once = 0 →
        (plugin_tick su cfg env2 s).1.connected = true
        ∧ (plugin_tick su cfg env2 s).1.connectStartUs = 0
        ∧ (plugin_tick su cfg env2 s).1.running = true) := by
  refine ⟨fun hnow =>
      plugin_tick_quiet_pres su cfg env s hrun hc hs hq1 hq2 hT hnow,
    fun hinit hnow =>
      plugin_tick_timeout_fire su cfg env s hinit hc hs hq1 hq2 hT hnow,
    fun envs hq =>
      plugin_run_quiet_pres su cfg envs s s.connectStartUs hrun hc rfl hs
        hT hq,
    fun env2 hw hp hq hinit hwait hso =>
      plugin_tick_ack su cfg env2 s hrun hinit hc hwait hw hp hq hso⟩

def c4cfg : PluginConfig :=
  ⟨1, "10.0.0.2", 9276, 0, 0, "PSP", 2000, 30000, 0, 5, 0, 0, 300, 0⟩

def c4env : TickEnv :=
  ⟨100, true, 0, 0, 0, 0, true, true, false, ⟨"X", 0, false⟩, 0⟩

def c4state : LoopState :=
  ⟨true, false, true, 1, 0, 0, 0, 0, false, true, 0, 0, ⟨"X", 0, false⟩, ""⟩

/-- Witness for `C4_connect_timeout`: a waiting session whose connect
attempt is 100 µs old under a 5 s timeout keeps running. -/
theorem C4_connect_timeout_witness :
    c4state.running = true
    ∧ ((plugin_tick false c4cfg c4env c4state).1.running = true
      ∧ (plugin_tick false c4cfg c4env c4state).1.connected = false
      ∧ (plugin_tick false c4cfg c4env c4state).1.connectStartUs
          = c4state.connectStartUs) :=
  ⟨rfl,
   (C4_connect_timeout false c4cfg c4env c4state rfl rfl (by decide)
     (by decide) (by decide) (by decide)).1 (by decide)⟩

/-- C8 counterexample: with send-once and icons enabled, the tick that
performs the first successful `GameInfo` send also pushes the icon for that
game *after* the `GameInfo` send (main.c lines 552-573) and only then tears
the transport down — so "never sends any further message in that session",
read literally from the `GameInfo` send onward, fails. -/
theorem C8_icon_after_send_counterexample :
    (plugin_tick false
        ⟨1, "10.0.0.2", 9276, 0, 1, "PSP", 2000, 30000, 0, 0, 1, 0, 300, 0⟩
        ⟨0, true, 0, 0, 0, 0, true, true, false, ⟨"X", 0, false⟩, 0⟩
        ⟨true, true, false, 0, 0, 0, 0, 0, true, true, 0, 0,
          ⟨"ULUS10001", 1, true⟩, ""⟩).2.sentGameInfoOk = true
    ∧ (plugin_tick false
        ⟨1, "10.0.0.2", 9276, 0, 1, "PSP", 2000, 30000, 0, 0, 1, 0, 300, 0⟩
        ⟨0, true, 0, 0, 0, 0, true, true, false, ⟨"X", 0, false⟩, 0⟩
        ⟨true, true, false, 0, 0, 0, 0, 0, true, true, 0, 0,
          ⟨"ULUS10001", 1, true⟩, ""⟩).2.sentIcon = true
    ∧ (plugin_tick false
        ⟨1, "10.0.0.2", 9276, 0, 1, "PSP", 2000, 30000, 0, 0, 1, 0, 300, 0⟩
        ⟨0, true, 0, 0, 0, 0, true, true, false, ⟨"X", 0, false⟩, 0⟩
        ⟨true, true, false, 0, 0, 0, 0, 0, true, true, 0, 0,
          ⟨"ULUS10001", 1, true⟩, ""⟩).1.running = false := by
  refine ⟨?_, ?_, ?_⟩ <;> decide

/-- C8 (amended): with the send-once flag set, the tick reporting the first
successful `GameInfo` send stops the loop, clears the connected and
initialised state, and calls disconnect and shutdown; afterwards the worker
loop never executes again, so no message of any kind is sent in any later
tick.  (Within that same tick, the icon push for the game just announced may
still follow the `GameInfo` send, before the teardown — see the
counterexample.) -/
theorem C8_send_once (su : Bool) (cfg : PluginConfig) (env : TickEnv)
    (s : LoopState) (envs : List TickEnv)
    (honce : cfg.send_once ≠ 0)
    (hok : (plugin_tick su cfg env s).2.sentGameInfoOk = true) :
    (plugin_tick su cfg env s).1.running = false
    ∧ (plugin_tick su cfg env s).1.networkInitialized = false
    ∧ (plugin_tick su cfg env s).1.connected = false
    ∧ (plugin_tick su cfg env s).2.disconnectCalled = true
    ∧ (plugin_tick su cfg env s).2.shutdownCalled = true
    ∧ plugin_run su cfg envs (plugin_tick su cfg env s).1
        = ((plugin_tick su cfg env s).1, []) := by
  have h := plugin_tick_send_once su cfg env s hok honce
  exact ⟨h.1, h.2.1, h.2.2.1, h.2.2.2.1, h.2.2.2.2,
    plugin_run_stopped su cfg envs _ h.1⟩

/-- Witness for `C8_send_once` at the counterexample's concrete tick. -/
theorem C8_send_once_witness :
    (⟨1, "10.0.0.2", 9276, 0, 1, "PSP", 2000, 30000, 0, 0, 1, 0, 300, 0⟩
        : PluginConfig).send_once ≠ 0
    ∧ ((plugin_tick false
        ⟨1, "10.0.0.2", 9276, 0, 1, "PSP", 2000, 30000, 0, 0, 1, 0, 300, 0⟩
        ⟨0, true, 0, 0, 0, 0, true, false, false, ⟨"X", 0, false⟩, 0⟩
        ⟨true, true, false, 0, 0, 0, 0, 0, true, true, 0, 0,
          ⟨"ULUS10001", 1, true⟩, ""⟩).1.running = false
      ∧ (plugin_tick false
        ⟨1, "10.0.0.2", 9276, 0, 1, "PSP", 2000, 30000, 0, 0, 1, 0, 300, 0⟩
        ⟨0, true, 0, 0, 0, 0, true, false, false, ⟨"X", 0, false⟩, 0⟩
        ⟨true, true, false, 0, 0, 0, 0, 0, true, true, 0, 0,
          ⟨"ULUS10001", 1, true⟩, ""⟩).1.networkInitialized = false
      ∧ (plugin_tick false
        ⟨1, "10.0.0.2", 9276, 0, 1, "PSP", 2000, 30000, 0, 0, 1, 0, 300, 0⟩
        ⟨0, true, 0, 0, 0, 0, true, false, false, ⟨"X", 0, false⟩, 0⟩
        ⟨true, true, false, 0, 0, 0, 0, 0, true, true, 0, 0,
          ⟨"ULUS10001", 1, true⟩, ""⟩).1.connected = false
      ∧ (plugin_tick false
        ⟨1, "10.0.0.2", 9276, 0, 1, "PSP", 2000, 30000, 0, 0, 1, 0, 300, 0⟩
        ⟨0, true, 0, 0, 0, 0, true, false, false, ⟨"X", 0, false⟩, 0⟩
        ⟨true, true, false, 0, 0, 0, 0, 0, true, true, 0, 0,
          ⟨"ULUS10001", 1, true⟩, ""⟩).2.disconnectCalled = true
      ∧ (plugin_tick false
        ⟨1, "10.0.0.2", 9276, 0, 1, "PSP", 2000, 30000, 0, 0, 1, 0, 300, 0⟩
        ⟨0, true, 0, 0, 0, 0, true, false, false, ⟨"X", 0, false⟩, 0⟩
        ⟨true, true, false, 0, 0, 0, 0, 0, true, true, 0, 0,
          ⟨"ULUS10001", 1, true⟩, ""⟩).2.shutdownCalled = true
      ∧ plugin_run false
          ⟨1, "10.0.0.2", 9276, 0, 1, "PSP", 2000, 30000, 0, 0, 1, 0, 300, 0⟩
          []
          (plugin_tick false
            ⟨1, "10.0.0.2", 9276, 0, 1, "PSP", 2000, 30000, 0, 0, 1, 0, 300, 0⟩
            ⟨0, true, 0, 0, 0, 0, true, false, false, ⟨"X", 0, false⟩, 0⟩
            ⟨true, true, false, 0, 0, 0, 0, 0, true, true, 0, 0,
              ⟨"ULUS10001", 1, true⟩, ""⟩).1
          = ((plugin_tick false
            ⟨1, "10.0.0.2", 9276, 0, 1, "PSP", 2000, 30000, 0, 0, 1, 0, 300, 0⟩
            ⟨0, true, 0, 0, 0, 0, true, false, false, ⟨"X", 0, false⟩, 0⟩
            ⟨true, true, false, 0, 0, 0, 0, 0, true, true, 0, 0,
              ⟨"ULUS10001", 1, true⟩, ""⟩).1, [])) :=
  ⟨by decide,
   C8_send_once false
     ⟨1, "10.0.0.2", 9276, 0, 1, "PSP", 2000, 30000, 0, 0, 1, 0, 300, 0⟩
     ⟨0, true, 0, 0, 0, 0, true, false, false, ⟨"X", 0, false⟩, 0⟩
     ⟨true, true, false, 0, 0, 0, 0, 0, true, true, 0, 0,
       ⟨"ULUS10001", 1, true⟩, ""⟩ [] (by decide) (by decide)⟩

end PspDrp
